import Mathlib

/-!
# NoteBook: the streaming proxy and the client-side stream consumer

A shallow embedding of `app/api/claude/route.ts` (the Proxy Forwarder, `POST`)
and of `src/lib/api/claude.js` (the Stream Consumer, `streamResponseFromClaude`
with `handleStreamingError`), followed by the properties proved about them.

Conventions of the embedding.

* A JavaScript value that came out of `JSON.parse` / `request.json()` is a `Json`;
  a possibly `undefined` value is an `Option Json` (`none` is `undefined`).
* A raised `Error` is represented by its `message`, a `String`; code that may raise
  returns `Except String _`.
* Built-ins of the JavaScript engine that the source calls but does not define
  (`JSON.parse`, the number-to-string conversion, the text of an engine `TypeError`)
  are the fields of a `Runtime` that every embedded function takes as a parameter.
* `fetch` is a parameter too: a function from the request made to its outcome.
* A response body is the list of the outcomes of the successive `reader.read()`
  calls, each chunk already decoded to text (the value of
  `decoder.decode(value, { stream: true })`); the end of the list is `done`.
-/

namespace NoteBook

/-! ## JSON values -/

/-- A JSON value. A number `num m e` stands for `m * 10 ^ e`; the members of an
object are kept in source order, duplicates included. -/
inductive Json where
  | null
  | bool (b : Bool)
  | num (mant : Int) (exp : Int)
  | str (s : String)
  | arr (xs : List Json)
  | obj (kvs : List (String × Json))

namespace Json

mutual
/-- Decidable equality of JSON values. -/
def decEq : (a b : Json) → Decidable (a = b)
  | null, null => isTrue rfl
  | bool a, bool b =>
      if h : a = b then isTrue (by rw [h])
      else isFalse (by intro e; cases e; exact h rfl)
  | num a c, num b d =>
      if h : a = b ∧ c = d then isTrue (by rw [h.1, h.2])
      else isFalse (by intro e; cases e; exact h ⟨rfl, rfl⟩)
  | str a, str b =>
      if h : a = b then isTrue (by rw [h])
      else isFalse (by intro e; cases e; exact h rfl)
  | arr a, arr b =>
      match decEqList a b with
      | isTrue h => isTrue (by rw [h])
      | isFalse h => isFalse (by intro e; cases e; exact h rfl)
  | obj a, obj b =>
      match decEqMembers a b with
      | isTrue h => isTrue (by rw [h])
      | isFalse h => isFalse (by intro e; cases e; exact h rfl)
  | null, bool _ | null, num _ _ | null, str _ | null, arr _ | null, obj _
  | bool _, null | bool _, num _ _ | bool _, str _ | bool _, arr _ | bool _, obj _
  | num _ _, null | num _ _, bool _ | num _ _, str _ | num _ _, arr _ | num _ _, obj _
  | str _, null | str _, bool _ | str _, num _ _ | str _, arr _ | str _, obj _
  | arr _, null | arr _, bool _ | arr _, num _ _ | arr _, str _ | arr _, obj _
  | obj _, null | obj _, bool _ | obj _, num _ _ | obj _, str _ | obj _, arr _ =>
      isFalse (by intro e; cases e)
/-- Decidable equality of lists of JSON values. -/
def decEqList : (a b : List Json) → Decidable (a = b)
  | [], [] => isTrue rfl
  | [], _ :: _ | _ :: _, [] => isFalse (by intro e; cases e)
  | x :: xs, y :: ys =>
      match decEq x y, decEqList xs ys with
      | isTrue h, isTrue h2 => isTrue (by rw [h, h2])
      | isFalse h, _ => isFalse (by intro e; cases e; exact h rfl)
      | _, isFalse h => isFalse (by intro e; cases e; exact h rfl)
/-- Decidable equality of member lists. -/
def decEqMembers : (a b : List (String × Json)) → Decidable (a = b)
  | [], [] => isTrue rfl
  | [], _ :: _ | _ :: _, [] => isFalse (by intro e; cases e)
  | (k, x) :: xs, (l, y) :: ys =>
      if hk : k = l then
        match decEq x y, decEqMembers xs ys with
        | isTrue h, isTrue h2 => isTrue (by rw [hk, h, h2])
        | isFalse h, _ => isFalse (by intro e; cases e; exact h rfl)
        | _, isFalse h => isFalse (by intro e; cases e; exact h rfl)
      else isFalse (by intro e; cases e; exact hk rfl)
end

instance : DecidableEq Json := decEq

/-- The value of key `k` in the members of a parsed object: as in `JSON.parse`,
the last of several members with the same key is the one that counts. -/
def member (k : String) : List (String × Json) → Option Json
  | [] => none
  | (k', v) :: rest =>
      match member k rest with
      | some w => some w
      | none => if k' = k then some v else none

end Json

/-! ## The JavaScript engine -/

/-- The engine built-ins the source relies on. -/
structure Runtime where
  /-- The function `JSON.parse`; `none` when it raises a `SyntaxError`. -/
  parse : String → Option Json
  /-- The string of the number `m * 10 ^ e` (`Number.prototype.toString`). -/
  numberToString : Int → Int → String
  /-- The message of the `TypeError` raised when property `k` of `null` or
  `undefined` is read or destructured. -/
  typeErrorMessage : String → String

/-- JavaScript truthiness (`ToBoolean`) of a possibly `undefined` JSON value. -/
def truthy : Option Json → Bool
  | none => false
  | some .null => false
  | some (.bool b) => b
  | some (.num m _) => decide (m ≠ 0)
  | some (.str s) => decide (s ≠ "")
  | some (.arr _) => true
  | some (.obj _) => true

/-- The test `Array.isArray(v)`. -/
def isArray : Option Json → Bool
  | some (.arr _) => true
  | _ => false

/-- Property read `base.k`, for the property names the source uses (`model`,
`messages`, `attachments`, `extendedThinking`, `stream`, `error`, `message`, `type`,
`delta`, `text`): none of them is a built-in property of a string, number, boolean
or array, so only an object can hold one; `null` and `undefined` raise. -/
def getProp (rt : Runtime) (base : Option Json) (k : String) : Except String (Option Json) :=
  match base with
  | none => .error (rt.typeErrorMessage k)
  | some .null => .error (rt.typeErrorMessage k)
  | some (.obj kvs) => .ok (Json.member k kvs)
  | some _ => .ok none

/-- Optional chaining `base?.k`: `undefined` when `base` is `null` or `undefined`. -/
def getPropOpt (base : Option Json) (k : String) : Option Json :=
  match base with
  | some (.obj kvs) => Json.member k kvs
  | _ => none

mutual
/-- The string conversion (`ToString`) applied by a template literal or by `+=`
on a string. -/
def toStr (rt : Runtime) : Json → String
  | .null => "null"
  | .bool true => "true"
  | .bool false => "false"
  | .num m e => rt.numberToString m e
  | .str s => s
  | .arr xs => joinElems rt xs
  | .obj _ => "[object Object]"
/-- The conversion `Array.prototype.join(",")`: a `null` element gives the empty string. -/
def joinElems (rt : Runtime) : List Json → String
  | [] => ""
  | [.null] => ""
  | [x] => toStr rt x
  | .null :: y :: rest => "," ++ joinElems rt (y :: rest)
  | x :: y :: rest => toStr rt x ++ "," ++ joinElems rt (y :: rest)
end

/-! ## Response bodies -/

/-- The outcome of one `reader.read()` that is not the end of the body. -/
inductive Read where
  | chunk (text : String)
  | fails (message : String)
  deriving DecidableEq

/-- A response body: the outcomes of the successive reads; after the last one the
reader reports `done`. -/
abbrev BodyStream := List Read

/-! ## The Proxy Forwarder (`app/api/claude/route.ts`) -/

/-- The constant `API_BASE_URL`. -/
def API_BASE_URL : String := "https://api.anthropic.com/v1"

/-- One call of `fetch`: the request made. -/
structure FetchCall where
  url : String
  method : String
  headers : List (String × String)
  /-- The value given to `JSON.stringify` for the request body. -/
  body : Json
  deriving DecidableEq

/-- What the upstream `fetch` resolves to. -/
structure UpstreamResponse where
  ok : Bool
  status : Nat
  statusText : String
  /-- The field `response.body` (`null` is `none`). -/
  body : Option BodyStream
  /-- The outcome of `response.json()`. -/
  json : Except String Json

/-- The body of a reply of the forwarder. -/
inductive ReplyBody where
  /-- The reply `NextResponse.json(j, ...)`. -/
  | json (j : Json)
  /-- The reply `new NextResponse(body, ...)`. -/
  | stream (b : Option BodyStream)
  deriving DecidableEq

/-- A reply of the forwarder. -/
structure Reply where
  status : Nat
  headers : List (String × String)
  body : ReplyBody
  deriving DecidableEq

/-- The reply `NextResponse.json(j, { status })`. -/
def jsonReply (j : Json) (status : Nat) : Reply :=
  { status := status, headers := [("content-type", "application/json")], body := .json j }

/-- A run of the handler: the reply, and the upstream calls made on the way. -/
structure Handled where
  reply : Reply
  upstreamCalls : List FetchCall
  deriving DecidableEq

/-- The upstream payload of lines 29-48: `model`, `messages`, `max_tokens`, then
the three optional fields. -/
def buildPayload (model messages attachments extendedThinking stream : Option Json) :
    List (String × Json) :=
  (match model with | some v => [("model", v)] | none => [])
  ++ (match messages with | some v => [("messages", v)] | none => [])
  ++ [("max_tokens", .num 4096 0)]
  ++ (match extendedThinking with
      | some v => if truthy (some v) then [("extended_thinking", v)] else []
      | none => [])
  ++ (if truthy stream then [("stream", .bool true)] else [])
  ++ (match attachments with
      | some (.arr (x :: xs)) => [("attachments", .arr (x :: xs))]
      | _ => [])

/-- Lines 61-84: the reply built from the upstream response, or the exception
raised on the way. -/
def POST.relay (rt : Runtime) (stream : Option Json) (response : UpstreamResponse) :
    Except String Reply :=
  if truthy stream then
    .ok { status := 200
          headers := [("Content-Type", "text/event-stream"),
                      ("Cache-Control", "no-cache"), ("Connection", "keep-alive")]
          body := .stream response.body }
  else if !response.ok then
    match response.json with
    | .error m => .error m
    | .ok errorData =>
      match getProp rt (some errorData) "error" with
      | .error m => .error m
      | .ok error =>
        -- errorData.error?.message || response.statusText
        let message := getPropOpt error "message"
        let shown := match message with
          | some v => if truthy (some v) then v else .str response.statusText
          | none => .str response.statusText
        .ok (jsonReply (.obj [("error", shown)]) response.status)
  else
    match response.json with
    | .error m => .error m
    | .ok result => .ok (jsonReply result 200)

/-- Lines 20-59, for a request that passed validation: the credential check, the
payload, the upstream call. -/
def POST.forward (rt : Runtime) (apiKey : Option String)
    (fetch : FetchCall → Except String UpstreamResponse)
    (model messages attachments extendedThinking stream : Option Json) :
    Except String Reply × List FetchCall :=
  let notConfigured : Reply := jsonReply (.obj [("error",
    .str "API key not configured. Please add CLAUDE_API_KEY to your .env.local file.")]) 500
  match apiKey with
  | none => (.ok notConfigured, [])
  | some key =>
    if key = "" then (.ok notConfigured, [])
    else
      let payload := buildPayload model messages attachments extendedThinking stream
      let call : FetchCall :=
        { url := API_BASE_URL ++ "/messages"
          method := "POST"
          headers := [("Content-Type", "application/json"), ("x-api-key", key),
                      ("anthropic-version", "2023-06-01")]
          body := .obj payload }
      match fetch call with
      | .error m => (.error m, [call])
      | .ok response => (POST.relay rt stream response, [call])

/-- The body of the `try` block of `POST`: the reply or the raised exception,
with the upstream calls made. `apiKey` is `CLAUDE_API_KEY`, `request` the outcome of
`request.json()`. -/
def POST.attempt (rt : Runtime) (apiKey : Option String)
    (fetch : FetchCall → Except String UpstreamResponse)
    (request : Except String Json) : Except String Reply × List FetchCall :=
  match request with
  | .error m => (.error m, [])
  | .ok data =>
    -- const { model, messages, attachments, extendedThinking, stream } = data;
    -- the destructuring raises when `data` is `null`; otherwise every name is read
    match getProp rt (some data) "model" with
    | .error m => (.error m, [])
    | .ok model =>
      let messages := getPropOpt (some data) "messages"
      let attachments := getPropOpt (some data) "attachments"
      let extendedThinking := getPropOpt (some data) "extendedThinking"
      let stream := getPropOpt (some data) "stream"
      if !truthy model || !truthy messages || !isArray messages then
        (.ok (jsonReply (.obj [("error",
          .str "Invalid request. Model and messages are required.")]) 400), [])
      else
        POST.forward rt apiKey fetch model messages attachments extendedThinking stream

/-- The handler `POST`: the `try` block, and the `catch` that turns a raised
exception into a reply with status 500. -/
def POST (rt : Runtime) (apiKey : Option String)
    (fetch : FetchCall → Except String UpstreamResponse)
    (request : Except String Json) : Handled :=
  match POST.attempt rt apiKey fetch request with
  | (.ok reply, calls) => { reply := reply, upstreamCalls := calls }
  | (.error m, calls) =>
    { reply := jsonReply (.obj [("error", .str (if m ≠ "" then m else "Internal server error"))]) 500
      upstreamCalls := calls }

/-! ## The Stream Consumer (`src/lib/api/claude.js`) -/

/-- The constant `API_ROUTE`. -/
def API_ROUTE : String := "/api/claude"

/-- The constant `CLAUDE_MODELS.CLAUDE_3_7_SONNET`. -/
def CLAUDE_3_7_SONNET : String := "claude-3-7-sonnet-20240307"

/-- What the consumer's `fetch` resolves to. -/
structure FetchResponse where
  ok : Bool
  status : Nat
  statusText : String
  /-- The value of `response.headers.get('content-type')` (`null` is `none`). -/
  contentType : Option String
  /-- The outcome of `response.text()`. -/
  text : Except String String
  /-- The field `response.body` (`null` is `none`). -/
  body : Option BodyStream

/-- What a call of `streamResponseFromClaude` did: the arguments of the successive
invocations of `onChunk`, and the value the promise resolved to (`none` is
`undefined`) or the error it was rejected with. -/
structure Outcome where
  calls : List Json
  result : Except String (Option Json)

/-- The test `s.includes(sub)`. -/
def includes (s sub : String) : Bool :=
  s.data.tails.any (fun t => sub.data.isPrefixOf t)

/-- The test `s.startsWith(p)`. -/
def startsWith (s p : String) : Bool := p.data.isPrefixOf s.data

/-- The text `s.slice(n)`. -/
def slice (s : String) (n : Nat) : String := ⟨s.data.drop n⟩

/-- The segments between the newlines of a text: never an empty list. -/
def splitNewline : List Char → List (List Char)
  | [] => [[]]
  | c :: cs =>
      if c = '\n' then [] :: splitNewline cs
      else
        match splitNewline cs with
        | [] => [[c]]
        | seg :: segs => (c :: seg) :: segs

/-- The array `s.split('\n')`. -/
def split (s : String) : List String := (splitNewline s.data).map String.mk

/-- The request payload of lines 75-87. -/
def requestPayload (prompt modelId : String) (messages files : List Json)
    (extendedThinking : Bool) : Json :=
  .obj ([("model", .str modelId),
         ("messages", .arr (messages ++ [.obj [("role", .str "user"), ("content", .str prompt)]])),
         ("max_tokens", .num 4096 0),
         ("stream", .bool true),
         ("extended_thinking", .bool (extendedThinking && decide (modelId = CLAUDE_3_7_SONNET)))]
        ++ (if files.length > 0 then [("attachments", .arr files)] else []))

/-- The error message built from a non-success response, lines 99-109. -/
def errorMessageOf (rt : Runtime) (errorText statusText : String) : String :=
  let fallback := "Claude API error: " ++ (if errorText ≠ "" then errorText else statusText)
  match rt.parse errorText with
  | none => fallback
  | some errorData =>
    match getProp rt (some errorData) "error" with
    | .error _ => fallback
    | .ok error =>
      match getPropOpt error "message" with
      | some v => if truthy (some v) then "Claude API error: " ++ toStr rt v
                  else "Claude API error: " ++ statusText
      | none => "Claude API error: " ++ statusText

/-- The `try`/`catch` of lines 140-147 on the payload of one `data: ` line: the
invocations of `onChunk` it makes. Whatever is raised inside is caught and logged. -/
def frameCalls (rt : Runtime) (data : String) : List Json :=
  match rt.parse data with
  | none => []
  | some parsed =>
    match getProp rt (some parsed) "type" with
    | .error _ => []
    | .ok type =>
      if type = some (.str "content_block_delta") then
        match getProp rt (some parsed) "delta" with
        | .error _ => []
        | .ok delta =>
          match getProp rt delta "text" with
          | .error _ => []
          | .ok none => []
          | .ok (some text) => if truthy (some text) then [text] else []
      else []

/-- The `for (const line of lines)` loop of lines 135-149, with its `break`: the
invocations of `onChunk` it makes. -/
def processLines (rt : Runtime) : List String → List Json
  | [] => []
  | line :: rest =>
      if startsWith line "data: " then
        let data := slice line 6
        if data = "[DONE]" then []
        else frameCalls rt data ++ processLines rt rest
      else processLines rt rest

/-- The `while (true)` loop of lines 124-150, from the reads still to come, the
current `buffer` and the invocations of `onChunk` made so far. -/
def readLoop (rt : Runtime) : BodyStream → String → List Json → Outcome
  | [], _, calls => { calls := calls, result := .ok none }
  | .fails m :: _, _, calls => { calls := calls, result := .error m }
  | .chunk text :: rest, buffer, calls =>
      let buffer := buffer ++ text
      let lines := split buffer
      -- buffer = lines.pop() || ''
      let buffer := lines.getLast?.getD ""
      let lines := lines.dropLast
      readLoop rt rest buffer (calls ++ processLines rt lines)

/-- The request of lines 90-96. -/
def requestCall (prompt modelId : String) (messages files : List Json)
    (extendedThinking : Bool) : FetchCall :=
  { url := API_ROUTE
    method := "POST"
    headers := [("Content-Type", "application/json")]
    body := requestPayload prompt modelId messages files extendedThinking }

/-- The `try` block of `streamResponseFromClaude`, lines 75-150. -/
def streamResponseFromClaude.attempt (rt : Runtime)
    (fetch : FetchCall → Except String FetchResponse)
    (prompt modelId : String) (messages files : List Json) (extendedThinking : Bool) :
    Outcome :=
  match fetch (requestCall prompt modelId messages files extendedThinking) with
  | .error m => { calls := [], result := .error m }
  | .ok response =>
    if !response.ok then
      match response.text with
      | .error m => { calls := [], result := .error m }
      | .ok errorText =>
        { calls := [], result := .error (errorMessageOf rt errorText response.statusText) }
    else
      -- const reader = response.body.getReader();
      match response.body with
      | none => { calls := [], result := .error (rt.typeErrorMessage "getReader") }
      | some body =>
        if !(match response.contentType with
             | some contentType => includes contentType "text/event-stream"
             | none => false) then
          { calls := [], result := .error "API did not return a streaming response" }
        else readLoop rt body "" []

/-- The diagnostic `handleStreamingError` passes to `onChunk`. -/
def handleStreamingError (error : String) : Json :=
  .str ("Error connecting to Claude API: " ++ error ++ ". Please check your API key and try again.")

/-- The function `streamResponseFromClaude`: the `try` block, and the `catch` that
calls `handleStreamingError` and raises the error again. The callback `onChunk`
records its argument and returns. -/
def streamResponseFromClaude (rt : Runtime)
    (fetch : FetchCall → Except String FetchResponse)
    (prompt modelId : String) (messages files : List Json) (extendedThinking : Bool) :
    Outcome :=
  let run := streamResponseFromClaude.attempt rt fetch prompt modelId messages files extendedThinking
  match run.result with
  | .ok v => { calls := run.calls, result := .ok v }
  | .error m => { calls := run.calls ++ [handleStreamingError m], result := .error m }

/-- The text the caller accumulates, `fullResponse += chunk` in
`ChatContext.sendMessage`, from the invocations of the callback. -/
def fullResponse (rt : Runtime) (calls : List Json) : String :=
  calls.foldl (fun acc chunk => acc ++ toStr rt chunk) ""

/-! ## A concrete engine, for evaluating the embedding on concrete inputs -/

namespace JsonText

/-- JSON whitespace. -/
def isWs (c : Char) : Bool := c = ' ' || c = '\n' || c = '\r' || c = '\t'

/-- Drop leading whitespace. -/
def skipWs : List Char → List Char
  | [] => []
  | c :: cs => if isWs c then skipWs cs else c :: cs

/-- The value of a decimal digit. -/
def digit (c : Char) : Option Nat :=
  if '0' ≤ c ∧ c ≤ '9' then some (c.toNat - '0'.toNat) else none

/-- The value of a hexadecimal digit. -/
def hexDigit (c : Char) : Option Nat :=
  if '0' ≤ c ∧ c ≤ '9' then some (c.toNat - '0'.toNat)
  else if 'a' ≤ c ∧ c ≤ 'f' then some (c.toNat - 'a'.toNat + 10)
  else if 'A' ≤ c ∧ c ≤ 'F' then some (c.toNat - 'A'.toNat + 10)
  else none

/-- The character of a `\uXXXX` escape outside the surrogate range. -/
def unicodeEscape (a b c d : Char) : Option Char :=
  match hexDigit a, hexDigit b, hexDigit c, hexDigit d with
  | some x, some y, some z, some w =>
      let n := ((x * 16 + y) * 16 + z) * 16 + w
      if n < 0xD800 ∨ 0xDFFF < n then some (Char.ofNat n) else none
  | _, _, _, _ => none

/-- The rest of a string literal after its opening quote: the string (built in
`acc`, reversed) and the text after the closing quote. -/
def stringBody : List Char → List Char → Option (String × List Char)
  | [], _ => none
  | c :: cs, acc =>
      if c = '"' then some (String.mk acc.reverse, cs)
      else if c = '\\' then
        match cs with
        | [] => none
        | e :: cs1 =>
            if e = '"' then stringBody cs1 ('"' :: acc)
            else if e = '\\' then stringBody cs1 ('\\' :: acc)
            else if e = '/' then stringBody cs1 ('/' :: acc)
            else if e = 'b' then stringBody cs1 (Char.ofNat 8 :: acc)
            else if e = 'f' then stringBody cs1 (Char.ofNat 12 :: acc)
            else if e = 'n' then stringBody cs1 ('\n' :: acc)
            else if e = 'r' then stringBody cs1 ('\r' :: acc)
            else if e = 't' then stringBody cs1 ('\t' :: acc)
            else if e = 'u' then
              match cs1 with
              | a :: b :: c :: d :: cs2 =>
                  match unicodeEscape a b c d with
                  | some u => stringBody cs2 (u :: acc)
                  | none => none
              | _ => none
            else none
      else if c.toNat < 32 then none
      else stringBody cs (c :: acc)

/-- A run of decimal digits: their value, from the value `n` read so far. -/
def digits : List Char → Nat → Nat × List Char
  | [], n => (n, [])
  | c :: cs, n =>
      match digit c with
      | some d => digits cs (n * 10 + d)
      | none => (n, c :: cs)

/-- An integer literal `-?(0|[1-9][0-9]*)`, not followed by a fraction or an exponent. -/
def intLiteral (cs : List Char) : Option (Json × List Char) :=
  let (neg, body) := match cs with
    | '-' :: r => (true, r)
    | r => (false, r)
  match body with
  | [] => none
  | c :: r =>
      match digit c with
      | none => none
      | some d =>
          let (n, after) := if d = 0 then (0, r) else digits r d
          match after with
          | x :: _ =>
              if x = '.' ∨ x = 'e' ∨ x = 'E' ∨ (digit x).isSome then none
              else some (.num (if neg then -(n : Int) else n) 0, after)
          | [] => some (.num (if neg then -(n : Int) else n) 0, after)

mutual
/-- One JSON value, with the text after it. -/
def value : Nat → List Char → Option (Json × List Char)
  | 0, _ => none
  | fuel + 1, cs =>
      match skipWs cs with
      | [] => none
      | c :: r =>
          if c = '"' then
            match stringBody r [] with
            | some (s, after) => some (.str s, after)
            | none => none
          else if c = '[' then
            match skipWs r with
            | ']' :: after => some (.arr [], after)
            | _ =>
                match elements fuel r with
                | some (xs, after) => some (.arr xs, after)
                | none => none
          else if c = '{' then
            match skipWs r with
            | '}' :: after => some (.obj [], after)
            | _ =>
                match members fuel r with
                | some (kvs, after) => some (.obj kvs, after)
                | none => none
          else
            match c :: r with
            | 't' :: 'r' :: 'u' :: 'e' :: after => some (.bool true, after)
            | 'f' :: 'a' :: 'l' :: 's' :: 'e' :: after => some (.bool false, after)
            | 'n' :: 'u' :: 'l' :: 'l' :: after => some (.null, after)
            | other => intLiteral other
/-- The elements of an array after `[`, up to and including `]`. -/
def elements : Nat → List Char → Option (List Json × List Char)
  | 0, _ => none
  | fuel + 1, cs =>
      match value fuel cs with
      | none => none
      | some (v, r) =>
          match skipWs r with
          | ',' :: r' =>
              match elements fuel r' with
              | some (vs, after) => some (v :: vs, after)
              | none => none
          | ']' :: after => some ([v], after)
          | _ => none
/-- The members of an object after `{`, up to and including `}`. -/
def members : Nat → List Char → Option (List (String × Json) × List Char)
  | 0, _ => none
  | fuel + 1, cs =>
      match skipWs cs with
      | '"' :: r =>
          match stringBody r [] with
          | none => none
          | some (k, r1) =>
              match skipWs r1 with
              | ':' :: r2 =>
                  match value fuel r2 with
                  | none => none
                  | some (v, r3) =>
                      match skipWs r3 with
                      | ',' :: r4 =>
                          match members fuel r4 with
                          | some (kvs, after) => some ((k, v) :: kvs, after)
                          | none => none
                      | '}' :: after => some ([(k, v)], after)
                      | _ => none
              | _ => none
      | _ => none
end

/-- A JSON text: one value between optional whitespace. It agrees with `JSON.parse`
on the texts whose numbers are integer literals and whose strings have no
surrogate escape, and rejects the others. -/
def parse (s : String) : Option Json :=
  match value (s.length + 1) s.data with
  | some (v, after) => if skipWs after = [] then some v else none
  | none => none

end JsonText

/-- A concrete engine: `JsonText.parse` for `JSON.parse`, integers printed in
decimal, and one fixed `TypeError` text. -/
def sampleRuntime : Runtime where
  parse := JsonText.parse
  numberToString := fun m _ => toString m
  typeErrorMessage := fun k => "Cannot read properties of null (reading '" ++ k ++ "')"

/-! ## Definitions used in the statements and proofs -/

/-- The request a valid call of the forwarder sends upstream, for the credential
`key` and the payload members `payload`. -/
def upstreamCall (key : String) (payload : List (String × Json)) : FetchCall :=
  { url := "https://api.anthropic.com/v1/messages"
    method := "POST"
    headers := [("Content-Type", "application/json"), ("x-api-key", key),
                ("anthropic-version", "2023-06-01")]
    body := .obj payload }

/-- A request body that passes the validation of line 13. -/
def passesValidation (data : Json) : Prop :=
  truthy (getPropOpt (some data) "model") = true ∧
    isArray (getPropOpt (some data) "messages") = true

instance (data : Json) : Decidable (passesValidation data) := by
  unfold passesValidation; infer_instance

/-- Put a character in front of the first segment. -/
def pushHead (c : Char) : List (List Char) → List (List Char)
  | [] => [[c]]
  | seg :: segs => (c :: seg) :: segs

/-- The complete (newline-terminated) lines of a text: all segments but the last. -/
def completeLines (s : String) : List String := (split s).dropLast

/-- What a text holds after its last newline. -/
def remainder (s : String) : String := (split s).getLast?.getD ""

/-- The text of a sequence of chunks. -/
def joinChunks : List String → String
  | [] => ""
  | c :: cs => c ++ joinChunks cs

/-- The sentinel line, the one on which the `for` loop breaks. -/
def isDone (line : String) : Bool :=
  startsWith line "data: " && decide (slice line 6 = "[DONE]")

/-- The invocations of `onChunk` that one line causes when the `for` loop reaches it. -/
def lineCalls (rt : Runtime) (line : String) : List Json :=
  if startsWith line "data: " then
    if slice line 6 = "[DONE]" then [] else frameCalls rt (slice line 6)
  else []

/-- The buffer and the invocations made, after the chunks `chunks` have been read
from the state `(buffer, calls)`. -/
def runChunks (rt : Runtime) : List String → String × List Json → String × List Json
  | [], st => st
  | c :: cs, (buffer, calls) =>
      runChunks rt cs (remainder (buffer ++ c),
        calls ++ processLines rt (completeLines (buffer ++ c)))

/-- The response has a success status, the content type of an event stream, and the
body `body`. -/
def Streams (response : FetchResponse) (body : BodyStream) : Prop :=
  response.ok = true ∧ response.body = some body ∧
    ∃ contentType, response.contentType = some contentType ∧
      includes contentType "text/event-stream" = true

/-- A streaming response with the given body, as the forwarder sends it. -/
def eventStream (body : BodyStream) : FetchResponse :=
  { ok := true, status := 200, statusText := "OK"
    contentType := some "text/event-stream", text := .ok "", body := some body }

/-- The frame `data: <payload>\n\n`. -/
def frame (payload : String) : String := "data: " ++ payload ++ "\n\n"

/-- The payload `{"type":"content_block_delta","delta":{"text":<quoted>}}`, where
`quoted` is the JSON string literal of the fragment. -/
def deltaPayload (quoted : String) : String :=
  "\x7b\"type\":\"content_block_delta\",\"delta\":\x7b\"text\":" ++ quoted ++ "\x7d\x7d"

/-- The object `{type: 'content_block_delta', delta: {text: t}}`. -/
def deltaObject (t : String) : Json :=
  .obj [("type", .str "content_block_delta"), ("delta", .obj [("text", .str t)])]

/-- The stream of the content-delta frames of the fragments `ts`, in order, followed
by the frame `data: [DONE]\n\n`. -/
def deltaStream (quote : String → String) (ts : List String) : String :=
  joinChunks (ts.map (fun t => frame (deltaPayload (quote t)))) ++ frame "[DONE]"

/-- A header name in ASCII lower case. -/
def lowerAscii (name : String) : String :=
  ⟨name.data.map (fun c => if 'A' ≤ c ∧ c ≤ 'Z' then Char.ofNat (c.toNat + 32) else c)⟩

/-- The value `headers.get(name)` for headers set once each: header names compare
without regard to case. -/
def headerGet (name : String) : List (String × String) → Option String
  | [] => none
  | (k, v) :: rest => if lowerAscii k = lowerAscii name then some v else headerGet name rest

/-- The HTTP exchange between the forwarder and the consumer's `fetch`, which the
source relies on and does not define: `response` is what `fetch` resolves to when
the forwarder answers `reply`. The status is the reply's, `ok` says that it lies in
200-299, the content type is the reply's header; the text of a JSON reply is a JSON
text that `JSON.parse` reads back as the value replied, and the body of a stream
reply is the stream replied. The status text is left free: it depends on the server
and on the version of HTTP. -/
def Delivers (rt : Runtime) (reply : Reply) (response : FetchResponse) : Prop :=
  response.status = reply.status ∧
  response.ok = decide (200 ≤ reply.status ∧ reply.status ≤ 299) ∧
  response.contentType = headerGet "content-type" reply.headers ∧
  match reply.body with
  | .json j => ∃ text, response.text = .ok text ∧ rt.parse text = some j
  | .stream (some body) => response.body = some body
  | .stream none => True

/-- The payload members the forwarder builds from the request body `data`. -/
def payloadOf (data : Json) : List (String × Json) :=
  buildPayload (getPropOpt (some data) "model") (getPropOpt (some data) "messages")
    (getPropOpt (some data) "attachments") (getPropOpt (some data) "extendedThinking")
    (getPropOpt (some data) "stream")

/-- The reply of the `catch` block for an exception of message `m`. -/
def caughtReply (m : String) : Reply :=
  { status := 500
    headers := [("content-type", "application/json")]
    body := .json (.obj [("error", .str (if m ≠ "" then m else "Internal server error"))]) }

/-! ## The consumer with a callback that may raise -/

/-- A callback `onChunk` that may raise: from the arguments of the invocations made
before and its own argument, it returns or raises an error (its message). -/
abbrev Callback := List Json → Json → Except String Unit

/-- The `try`/`catch` of lines 140-147 with such a callback, from the invocations
made so far: the invocations made after it. What the callback raises is raised
inside the `try`, so the `catch` of line 145 takes it and logs it. -/
def frameCallsWith (rt : Runtime) (onChunk : Callback) (calls : List Json)
    (data : String) : List Json :=
  match rt.parse data with
  | none => calls
  | some parsed =>
    match getProp rt (some parsed) "type" with
    | .error _ => calls
    | .ok type =>
      if type = some (.str "content_block_delta") then
        match getProp rt (some parsed) "delta" with
        | .error _ => calls
        | .ok delta =>
          match getProp rt delta "text" with
          | .error _ => calls
          | .ok none => calls
          | .ok (some text) =>
            if truthy (some text) then
              match onChunk calls text with
              | .ok _ => calls ++ [text]
              | .error _ => calls ++ [text]
            else calls
      else calls

/-- The `for` loop of lines 135-149 with a callback that may raise. -/
def processLinesWith (rt : Runtime) (onChunk : Callback) : List Json → List String → List Json
  | calls, [] => calls
  | calls, line :: rest =>
      if startsWith line "data: " then
        let data := slice line 6
        if data = "[DONE]" then calls
        else processLinesWith rt onChunk (frameCallsWith rt onChunk calls data) rest
      else processLinesWith rt onChunk calls rest

/-- The `while (true)` loop of lines 124-150 with a callback that may raise. -/
def readLoopWith (rt : Runtime) (onChunk : Callback) :
    BodyStream → String → List Json → Outcome
  | [], _, calls => { calls := calls, result := .ok none }
  | .fails m :: _, _, calls => { calls := calls, result := .error m }
  | .chunk text :: rest, buffer, calls =>
      let buffer := buffer ++ text
      let lines := split buffer
      let buffer := lines.getLast?.getD ""
      let lines := lines.dropLast
      readLoopWith rt onChunk rest buffer (processLinesWith rt onChunk calls lines)

/-- The `try` block of `streamResponseFromClaude` with a callback that may raise. -/
def streamResponseFromClaudeWith.attempt (rt : Runtime) (onChunk : Callback)
    (fetch : FetchCall → Except String FetchResponse)
    (prompt modelId : String) (messages files : List Json) (extendedThinking : Bool) :
    Outcome :=
  match fetch (requestCall prompt modelId messages files extendedThinking) with
  | .error m => { calls := [], result := .error m }
  | .ok response =>
    if !response.ok then
      match response.text with
      | .error m => { calls := [], result := .error m }
      | .ok errorText =>
        { calls := [], result := .error (errorMessageOf rt errorText response.statusText) }
    else
      match response.body with
      | none => { calls := [], result := .error (rt.typeErrorMessage "getReader") }
      | some body =>
        if !(match response.contentType with
             | some contentType => includes contentType "text/event-stream"
             | none => false) then
          { calls := [], result := .error "API did not return a streaming response" }
        else readLoopWith rt onChunk body "" []

/-- The function `streamResponseFromClaude` with a callback that may raise. In the
`catch` block the diagnostic is passed to the callback; if the callback raises
there, that error leaves the function and `throw error` is not reached. -/
def streamResponseFromClaudeWith (rt : Runtime) (onChunk : Callback)
    (fetch : FetchCall → Except String FetchResponse)
    (prompt modelId : String) (messages files : List Json) (extendedThinking : Bool) :
    Outcome :=
  let run := streamResponseFromClaudeWith.attempt rt onChunk fetch prompt modelId messages
    files extendedThinking
  match run.result with
  | .ok v => { calls := run.calls, result := .ok v }
  | .error m =>
    match onChunk run.calls (handleStreamingError m) with
    | .ok _ => { calls := run.calls ++ [handleStreamingError m], result := .error m }
    | .error raised =>
      { calls := run.calls ++ [handleStreamingError m], result := .error raised }

/-! ## The text decoder -/

/-- The engine's `TextDecoder`, used with `{ stream: true }`: a state that is kept
from one call of `decode` to the next, and a handler run on each byte in turn, which
moves the state and may emit characters. Bytes are numbers below 256. -/
structure Decoder (σ : Type) where
  init : σ
  step : σ → Nat → σ × List Char

/-- The call `decoder.decode(value, { stream: true })` from the state `s`: the state
after the bytes, and the text emitted. -/
def Decoder.decode {σ : Type} (d : Decoder σ) (s : σ) : List Nat → σ × String
  | [] => (s, "")
  | b :: bs =>
      let (s1, emitted) := d.step s b
      let (s2, text) := d.decode s1 bs
      (s2, String.mk emitted ++ text)

/-- The decoded texts of the successive reads, lines 115 and 125-129: one decoder
for the whole body, fed with the bytes of each read in turn. -/
def decodedReads {σ : Type} (d : Decoder σ) : σ → List (List Nat) → List String
  | _, [] => []
  | s, value :: rest => (d.decode s value).2 :: decodedReads d (d.decode s value).1 rest

/-- The state of a UTF-8 decoder: the code point being assembled, the bytes seen and
needed for it, the bounds of the next continuation byte, and whether the start of
the stream is still to come (a byte order mark there is dropped). -/
structure Utf8State where
  codePoint : Nat
  bytesSeen : Nat
  bytesNeeded : Nat
  lower : Nat
  upper : Nat
  atStart : Bool
  deriving DecidableEq

/-- The state between two characters. -/
def Utf8State.idle (atStart : Bool) : Utf8State :=
  { codePoint := 0, bytesSeen := 0, bytesNeeded := 0, lower := 128, upper := 191,
    atStart := atStart }

/-- The handler of a byte that starts a character. -/
def utf8First (atStart : Bool) (b : Nat) : Utf8State × List Nat :=
  if b ≤ 127 then (Utf8State.idle atStart, [b])
  else if 194 ≤ b ∧ b ≤ 223 then
    ({ Utf8State.idle atStart with bytesNeeded := 1, codePoint := b % 32 }, [])
  else if 224 ≤ b ∧ b ≤ 239 then
    ({ Utf8State.idle atStart with
        bytesNeeded := 2, codePoint := b % 16
        lower := if b = 224 then 160 else 128
        upper := if b = 237 then 159 else 191 }, [])
  else if 240 ≤ b ∧ b ≤ 244 then
    ({ Utf8State.idle atStart with
        bytesNeeded := 3, codePoint := b % 8
        lower := if b = 240 then 144 else 128
        upper := if b = 244 then 143 else 191 }, [])
  else (Utf8State.idle atStart, [65533])

/-- The handler of one byte: the next state and the code points emitted. -/
def utf8Handle (s : Utf8State) (b : Nat) : Utf8State × List Nat :=
  if s.bytesNeeded = 0 then utf8First s.atStart b
  else if b < s.lower ∨ s.upper < b then
    -- the sequence is broken: U+FFFD, and the byte is handled again as a first byte
    let (s1, out) := utf8First s.atStart b
    (s1, 65533 :: out)
  else
    let codePoint := s.codePoint * 64 + b % 64
    if s.bytesSeen + 1 = s.bytesNeeded then (Utf8State.idle s.atStart, [codePoint])
    else
      ({ s with codePoint := codePoint, bytesSeen := s.bytesSeen + 1
                lower := 128, upper := 191 }, [])

/-- A UTF-8 decoder after the Encoding standard: `utf8Handle` on each byte, a byte
order mark at the start of the stream being dropped. -/
def utf8Decoder : Decoder Utf8State where
  init := Utf8State.idle true
  step := fun s b =>
    let (s1, out) := utf8Handle s b
    match out with
    | [] => (s1, [])
    | first :: more =>
        ({ s1 with atStart := false },
          ((if s.atStart ∧ first = 65279 then more else first :: more).map Char.ofNat))

/-- The bytes of an ASCII text. -/
def asciiBytes (s : String) : List Nat := s.data.map Char.toNat

/-! ## Sign-in, file icons, chats and folders -/

/-- The hardcoded `users` of `lib/auth/auth.js`, each record as its members. -/
def users : List (List (String × Json)) :=
  [[("id", .str "1"), ("username", .str "user"), ("password", .str "password"),
    ("displayName", .str "Demo User"), ("role", .str "user"), ("avatar", .null)],
   [("id", .str "2"), ("username", .str "admin"), ("password", .str "admin123"),
    ("displayName", .str "Admin"), ("role", .str "admin"), ("avatar", .null)]]

/-- The function `login`: the first user whose `username` and `password` are the
given strings, copied without its `password`; `none` is `null`. -/
def login (username password : String) : Option (List (String × Json)) :=
  match users.find? (fun u =>
      decide (Json.member "username" u = some (.str username)) &&
      decide (Json.member "password" u = some (.str password))) with
  | some user => some (user.filter (fun member => decide (member.1 ≠ "password")))
  | none => none

/-- The function `getFileIcon` of `lib/files/fileUpload.js`. -/
def getFileIcon (mimeType : String) : String :=
  if startsWith mimeType "image/" then "image"
  else if startsWith mimeType "video/" then "video"
  else if startsWith mimeType "audio/" then "audio"
  else if includes mimeType "pdf" then "pdf"
  else if includes mimeType "word" || includes mimeType "document" then "document"
  else if includes mimeType "excel" || includes mimeType "spreadsheet" then "spreadsheet"
  else if includes mimeType "powerpoint" || includes mimeType "presentation" then
    "presentation"
  else if includes mimeType "zip" || includes mimeType "compressed" then "archive"
  else if includes mimeType "text/" || includes mimeType "code" then "text"
  else "file"

/-- A stored chat message, as `sendMessage` reads it. -/
structure ChatMessage where
  sender : String
  text : String
  deriving DecidableEq

/-- The `previousMessages` of `sendMessage`, lines 309-313. -/
def previousMessages (chatMessages : List ChatMessage) : List Json :=
  chatMessages.map (fun msg =>
    .obj [("role", .str (if msg.sender = "user" then "user" else "assistant")),
          ("content", .str msg.text)])

/-- The request `sendMessage` makes through `streamResponseFromClaude`, lines 317-322,
from the messages of the chat as the handler sees them (the state of the render that
created it, without the message being sent). -/
def sendMessageRequest (chatMessages : List ChatMessage) (message selectedModelId : String)
    (processedFiles : List Json) (extendedThinking : Bool) : FetchCall :=
  requestCall message selectedModelId (previousMessages chatMessages) processedFiles
    extendedThinking

/-- A chat of the chat list. -/
structure Chat where
  id : String
  title : String
  lastMessage : String
  timestamp : String
  /-- The folder of the chat; `none` is `null`. -/
  folderId : Option String
  deriving DecidableEq

/-- A folder: its id, its stored count of chats, and its other members. -/
structure Folder where
  id : String
  chats : Nat
  other : List (String × Json)
  deriving DecidableEq

/-- The state of `ChatProvider` that the handlers of one render see: `chats`,
`folders` and `currentChat`. A `set...` call does not change what the handler sees;
it gives the state of the next render. The `save...` calls write the same values to
local storage. -/
structure ChatState where
  chats : List Chat
  folders : List Folder
  currentChat : Option Chat
  deriving DecidableEq

/-- The folders `updateFolderChatCount(folderId)` sets and saves, lines 185-196: the
count is taken over the `chats` the handler sees. -/
def updateFolderChatCount (st : ChatState) (folderId : String) : List Folder :=
  st.folders.map (fun folder =>
    if folder.id = folderId then
      { folder with
        chats := (st.chats.filter (fun chat => decide (chat.folderId = some folderId))).length }
    else folder)

/-- The test `if (folderId)` on a folder id: neither `null` nor empty. -/
def hasFolder : Option String → Option String
  | some folderId => if folderId = "" then none else some folderId
  | none => none

/-- The handler `createChat(title, folderId)`, lines 156-178: the state of the next
render and the chat returned. `now` is the text of `Date.now()` and `iso` the one of
`new Date().toISOString()`. -/
def createChat (st : ChatState) (now iso title : String) (folderId : Option String) :
    ChatState × Chat :=
  let newChat : Chat :=
    { id := "chat_" ++ now, title := title, lastMessage := "", timestamp := iso,
      folderId := folderId }
  let updatedChats := newChat :: st.chats
  ({ chats := updatedChats
     folders := match hasFolder folderId with
       | some id => updateFolderChatCount st id
       | none => st.folders
     currentChat := some newChat }, newChat)

/-- The handler `deleteChat(chatId)`, lines 382-405: the state of the next render. -/
def deleteChat (st : ChatState) (chatId : String) : ChatState :=
  if chatId = "" then st
  else
    let updatedChats := st.chats.filter (fun chat => decide (chat.id ≠ chatId))
    let deletedChat := st.chats.find? (fun chat => decide (chat.id = chatId))
    { chats := updatedChats
      folders := match deletedChat.bind (fun chat => hasFolder chat.folderId) with
        | some id => updateFolderChatCount st id
        | none => st.folders
      currentChat := match st.currentChat with
        | some current => if current.id = chatId then updatedChats.head? else some current
        | none => none }

/-! ## The Proxy Forwarder: validation, configuration, payload, streaming relay -/

theorem getProp_of_ne_null (rt : Runtime) (data : Json) (k : String) (h : data ≠ .null) :
    getProp rt (some data) k = .ok (getPropOpt (some data) k) := by
  cases data <;> simp_all [getProp, getPropOpt]

theorem ne_null_of_passesValidation {data : Json} (h : passesValidation data) :
    data ≠ .null := by
  rintro rfl
  simp [passesValidation, getPropOpt, truthy] at h

theorem isArray_truthy {v : Option Json} (h : isArray v = true) : truthy v = true := by
  match v, h with
  | some (.arr _), _ => rfl

/-- The run of the handler on a request that passes validation. -/
theorem POST_attempt_valid (rt : Runtime) (apiKey : Option String)
    (fetch : FetchCall → Except String UpstreamResponse) (data : Json)
    (hv : passesValidation data) :
    POST.attempt rt apiKey fetch (.ok data) =
      POST.forward rt apiKey fetch (getPropOpt (some data) "model")
        (getPropOpt (some data) "messages") (getPropOpt (some data) "attachments")
        (getPropOpt (some data) "extendedThinking") (getPropOpt (some data) "stream") := by
  have hn := ne_null_of_passesValidation hv
  obtain ⟨hm, ha⟩ := hv
  have hmt := isArray_truthy ha
  simp [POST.attempt, getProp_of_ne_null rt data _ hn, hm, ha, hmt]

/-- A request that passes validation, with a credential, makes exactly one upstream
call, whatever the upstream answers. -/
theorem POST_valid_calls (rt : Runtime) (key : String)
    (fetch : FetchCall → Except String UpstreamResponse) (data : Json)
    (hv : passesValidation data) (hk : key ≠ "") :
    (POST rt (some key) fetch (.ok data)).upstreamCalls =
      [upstreamCall key (buildPayload (getPropOpt (some data) "model")
        (getPropOpt (some data) "messages") (getPropOpt (some data) "attachments")
        (getPropOpt (some data) "extendedThinking") (getPropOpt (some data) "stream"))] := by
  simp only [POST, POST_attempt_valid rt _ fetch data hv, POST.forward, hk, ↓reduceIte]
  have hurl : API_BASE_URL ++ "/messages" = "https://api.anthropic.com/v1/messages" := by decide
  rw [hurl]
  cases hf : fetch _ with
  | error m => simp [upstreamCall]
  | ok response =>
    simp only []
    cases hr : POST.relay rt (getPropOpt (some data) "stream") response <;> simp [upstreamCall]

/-- C1, as amended: for every request body other than `null` in which `model` is
absent or falsy (empty included) or `messages` is not an array (absent included),
the forwarder replies with status 400 and the body
`{error: 'Invalid request. Model and messages are required.'}` and makes no upstream
call, with any credential or none. -/
theorem POST_invalid_request (rt : Runtime) (apiKey : Option String)
    (fetch : FetchCall → Except String UpstreamResponse) (data : Json)
    (hnull : data ≠ .null)
    (h : truthy (getPropOpt (some data) "model") = false ∨
      isArray (getPropOpt (some data) "messages") = false) :
    POST rt apiKey fetch (.ok data) =
      { reply :=
          { status := 400
            headers := [("content-type", "application/json")]
            body := .json (.obj [("error",
              .str "Invalid request. Model and messages are required.")]) }
        upstreamCalls := [] } := by
  simp only [POST, POST.attempt, getProp_of_ne_null rt data _ hnull]
  rcases h with h | h
  · simp [h, jsonReply]
  · simp [h, jsonReply]

/-- C1, witness: a body with `messages` but no `model`, with a credential configured. -/
theorem POST_invalid_request_witness :
    Json.obj [("messages", .arr [])] ≠ .null ∧
    (truthy (getPropOpt (some (Json.obj [("messages", .arr [])])) "model") = false ∨
      isArray (getPropOpt (some (Json.obj [("messages", .arr [])])) "messages") = false) ∧
    POST sampleRuntime (some "sk-test") (fun _ => .error "unreachable")
        (.ok (.obj [("messages", .arr [])])) =
      { reply :=
          { status := 400
            headers := [("content-type", "application/json")]
            body := .json (.obj [("error",
              .str "Invalid request. Model and messages are required.")]) }
        upstreamCalls := [] } :=
  ⟨by decide, by decide,
    POST_invalid_request sampleRuntime (some "sk-test") (fun _ => .error "unreachable")
      (.obj [("messages", .arr [])]) (by decide) (by decide)⟩

/-- C1, counterexample: the body `null` has no `model` and no `messages`, and the
reply has status 500, not 400: destructuring `null` raises, and the `catch` answers. -/
theorem POST_null_body_answers_500 :
    sampleRuntime.parse "null" = some Json.null ∧
    getPropOpt (some Json.null) "model" = none ∧
    getPropOpt (some Json.null) "messages" = none ∧
    (POST sampleRuntime (some "sk-test") (fun _ => .error "unreachable")
        (.ok .null)).reply.status = 500 ∧
    (POST sampleRuntime (some "sk-test") (fun _ => .error "unreachable")
        (.ok .null)).reply.status ≠ 400 := by
  decide

/-- C2: for every request that passes validation, when the server holds no upstream
credential (`CLAUDE_API_KEY` undefined or empty) the forwarder replies with status
500 and an `{error}` body and makes no upstream call. -/
theorem POST_no_credential (rt : Runtime) (apiKey : Option String)
    (fetch : FetchCall → Except String UpstreamResponse) (data : Json)
    (hv : passesValidation data) (hk : apiKey = none ∨ apiKey = some "") :
    POST rt apiKey fetch (.ok data) =
      { reply :=
          { status := 500
            headers := [("content-type", "application/json")]
            body := .json (.obj [("error", .str
              "API key not configured. Please add CLAUDE_API_KEY to your .env.local file.")]) }
        upstreamCalls := [] } := by
  rcases hk with rfl | rfl <;>
    simp [POST, POST_attempt_valid rt _ fetch data hv, POST.forward, jsonReply]

/-- C2, witness: a valid request, no credential. -/
theorem POST_no_credential_witness :
    passesValidation (.obj [("model", .str "claude"), ("messages", .arr [])]) ∧
    POST sampleRuntime none (fun _ => .error "unreachable")
        (.ok (.obj [("model", .str "claude"), ("messages", .arr [])])) =
      { reply :=
          { status := 500
            headers := [("content-type", "application/json")]
            body := .json (.obj [("error", .str
              "API key not configured. Please add CLAUDE_API_KEY to your .env.local file.")]) }
        upstreamCalls := [] } :=
  ⟨by decide,
    POST_no_credential sampleRuntime none (fun _ => .error "unreachable")
      (.obj [("model", .str "claude"), ("messages", .arr [])]) (by decide) (Or.inl rfl)⟩

/-- C3, as amended: for every request that passes validation, with a credential, the
forwarder makes one upstream call whose payload has pairwise distinct keys and holds
exactly: `model` and `messages` equal to the input's, `max_tokens` = 4096,
`extended_thinking` (with the input's value) if and only if the input's
`extendedThinking` is truthy, `stream` = true if and only if the input's `stream` is
truthy, `attachments` (the input's) if and only if the input's `attachments` is a
non-empty array, and no other key. -/
theorem POST_payload (rt : Runtime) (key : String)
    (fetch : FetchCall → Except String UpstreamResponse) (data : Json)
    (hv : passesValidation data) (hk : key ≠ "") :
    ∃ payload : List (String × Json),
      (POST rt (some key) fetch (.ok data)).upstreamCalls = [upstreamCall key payload] ∧
      (payload.map Prod.fst).Nodup ∧
      Json.member "model" payload = getPropOpt (some data) "model" ∧
      Json.member "messages" payload = getPropOpt (some data) "messages" ∧
      Json.member "max_tokens" payload = some (.num 4096 0) ∧
      Json.member "extended_thinking" payload =
        (if truthy (getPropOpt (some data) "extendedThinking") = true
          then getPropOpt (some data) "extendedThinking" else none) ∧
      Json.member "stream" payload =
        (if truthy (getPropOpt (some data) "stream") = true
          then some (.bool true) else none) ∧
      Json.member "attachments" payload =
        (match getPropOpt (some data) "attachments" with
          | some (.arr (x :: xs)) => some (.arr (x :: xs))
          | _ => none) ∧
      ∀ k, k ∉ ["model", "messages", "max_tokens", "extended_thinking", "stream",
          "attachments"] → Json.member k payload = none := by
  refine ⟨_, POST_valid_calls rt key fetch data hv hk, ?_⟩
  obtain ⟨hm, ha⟩ := hv
  generalize getPropOpt (some data) "model" = model at hm
  generalize getPropOpt (some data) "messages" = messages at ha
  generalize getPropOpt (some data) "extendedThinking" = et
  generalize getPropOpt (some data) "stream" = st
  generalize getPropOpt (some data) "attachments" = att
  obtain ⟨mv, rfl⟩ : ∃ v, model = some v := by
    cases model with
    | none => simp [truthy] at hm
    | some v => exact ⟨v, rfl⟩
  obtain ⟨av, rfl⟩ : ∃ v, messages = some v := by
    cases messages with
    | none => simp [isArray] at ha
    | some v => exact ⟨v, rfl⟩
  have hatt : ∃ l : List (String × Json),
      (match att with
        | some (.arr (x :: xs)) => [("attachments", Json.arr (x :: xs))]
        | _ => []) = l ∧
      (l = [] ∧ (match att with
        | some (.arr (x :: xs)) => some (Json.arr (x :: xs))
        | _ => none) = none ∨
       ∃ v, l = [("attachments", v)] ∧ (match att with
        | some (.arr (x :: xs)) => some (Json.arr (x :: xs))
        | _ => none) = some v) := by
    refine ⟨_, rfl, ?_⟩
    split
    · exact Or.inr ⟨_, rfl, rfl⟩
    · exact Or.inl ⟨rfl, rfl⟩
  obtain ⟨l, hl, hcase⟩ := hatt
  simp only [buildPayload]
  rw [hl]
  have het : ∃ l2 : List (String × Json),
      (match et with
        | some v => if truthy (some v) = true then [("extended_thinking", v)] else []
        | none => []) = l2 ∧
      (l2 = [] ∧ (if truthy et = true then et else none) = none ∨
       ∃ v, l2 = [("extended_thinking", v)] ∧
        (if truthy et = true then et else none) = some v) := by
    refine ⟨_, rfl, ?_⟩
    cases et with
    | none => exact Or.inl ⟨rfl, by simp [truthy]⟩
    | some v =>
      by_cases h : truthy (some v) = true
      · exact Or.inr ⟨v, by simp [h], by simp [h]⟩
      · exact Or.inl ⟨by simp [h], by simp [h]⟩
  obtain ⟨l2, hl2, hcase2⟩ := het
  rw [hl2]
  by_cases hs : truthy st = true <;>
    rcases hcase with ⟨rfl, h3⟩ | ⟨v, rfl, h3⟩ <;>
    rcases hcase2 with ⟨rfl, h4⟩ | ⟨w, rfl, h4⟩ <;>
    simp only [h3, h4, hs] <;>
    refine ⟨by simp, by simp [Json.member], by simp [Json.member], by simp [Json.member],
      by simp [Json.member], by simp [Json.member], by simp [Json.member], ?_⟩ <;>
    · intro k hk
      simp only [List.mem_cons, List.mem_singleton, List.not_mem_nil, or_false, not_or] at hk
      obtain ⟨h1, h2, h3, h4, h5, h6⟩ := hk
      simp [Json.member, Ne.symm h1, Ne.symm h2, Ne.symm h3, Ne.symm h4, Ne.symm h5, Ne.symm h6]

/-- C3, witness: a request with every optional field set. -/
theorem POST_payload_witness :
    passesValidation (.obj [("model", .str "claude"), ("messages", .arr []),
      ("max_tokens", .num 9 0), ("extendedThinking", .bool true), ("stream", .bool true),
      ("attachments", .arr [.str "file"])]) ∧
    ∃ payload : List (String × Json),
      (POST sampleRuntime (some "sk-test") (fun _ => .error "connection refused")
        (.ok (.obj [("model", .str "claude"), ("messages", .arr []),
          ("max_tokens", .num 9 0), ("extendedThinking", .bool true), ("stream", .bool true),
          ("attachments", .arr [.str "file"])]))).upstreamCalls
        = [upstreamCall "sk-test" payload] ∧
      Json.member "max_tokens" payload = some (.num 4096 0) :=
  ⟨by decide,
    (POST_payload sampleRuntime "sk-test" (fun _ => .error "connection refused")
      (.obj [("model", .str "claude"), ("messages", .arr []),
        ("max_tokens", .num 9 0), ("extendedThinking", .bool true), ("stream", .bool true),
        ("attachments", .arr [.str "file"])]) (by decide) (by decide)).imp
      (fun _ h => ⟨h.1, h.2.2.2.2.1⟩)⟩

/-- C3, counterexample: with `extendedThinking: "yes"` and `stream: 1`, neither of them
the value `true`, the payload sent upstream carries `extended_thinking: "yes"` and
`stream: true`. -/
theorem POST_payload_truthy_fields :
    sampleRuntime.parse
        "\x7b\"model\":\"claude\",\"messages\":[],\"extendedThinking\":\"yes\",\"stream\":1\x7d"
      = some (Json.obj [("model", .str "claude"), ("messages", .arr []),
          ("extendedThinking", .str "yes"), ("stream", .num 1 0)]) ∧
    getPropOpt (some (Json.obj [("model", .str "claude"), ("messages", .arr []),
        ("extendedThinking", .str "yes"), ("stream", .num 1 0)])) "extendedThinking"
      ≠ some (.bool true) ∧
    getPropOpt (some (Json.obj [("model", .str "claude"), ("messages", .arr []),
        ("extendedThinking", .str "yes"), ("stream", .num 1 0)])) "stream"
      ≠ some (.bool true) ∧
    (POST sampleRuntime (some "sk-test") (fun _ => .error "connection refused")
        (.ok (.obj [("model", .str "claude"), ("messages", .arr []),
          ("extendedThinking", .str "yes"), ("stream", .num 1 0)]))).upstreamCalls
      = [upstreamCall "sk-test"
          [("model", .str "claude"), ("messages", .arr []), ("max_tokens", .num 4096 0),
           ("extended_thinking", .str "yes"), ("stream", .bool true)]] := by
  decide

/-- C4: for every request that passes validation and asks for a stream (`stream`
true, or any truthy value), with a credential, when the upstream call returns a
response, the reply body is that response's body itself and the reply headers are
Content-Type: text/event-stream, Cache-Control: no-cache, Connection: keep-alive. -/
theorem POST_stream_relay (rt : Runtime) (key : String)
    (fetch : FetchCall → Except String UpstreamResponse) (data : Json)
    (response : UpstreamResponse)
    (hv : passesValidation data) (hk : key ≠ "")
    (hs : truthy (getPropOpt (some data) "stream") = true)
    (hf : ∀ call ∈ (POST rt (some key) fetch (.ok data)).upstreamCalls,
      fetch call = .ok response) :
    (POST rt (some key) fetch (.ok data)).reply =
      { status := 200
        headers := [("Content-Type", "text/event-stream"), ("Cache-Control", "no-cache"),
                    ("Connection", "keep-alive")]
        body := .stream response.body } := by
  rw [POST_valid_calls rt key fetch data hv hk] at hf
  have hf' := hf _ (List.mem_singleton.2 rfl)
  have hurl : API_BASE_URL ++ "/messages" = "https://api.anthropic.com/v1/messages" := by
    decide
  simp only [upstreamCall] at hf'
  simp only [POST, POST_attempt_valid rt _ fetch data hv, POST.forward, hk, ↓reduceIte,
    hurl, hf', POST.relay, hs]

/-- C4, witness: a streaming request whose upstream answers with two chunks. -/
theorem POST_stream_relay_witness :
    (POST sampleRuntime (some "sk-test")
      (fun _ => .ok { ok := true, status := 200, statusText := "OK",
                      body := some [.chunk "data: x\n", .chunk "\n"],
                      json := .error "body is not JSON" })
      (.ok (.obj [("model", .str "claude"), ("messages", .arr []),
        ("stream", .bool true)]))).reply =
      { status := 200
        headers := [("Content-Type", "text/event-stream"), ("Cache-Control", "no-cache"),
                    ("Connection", "keep-alive")]
        body := .stream (some [.chunk "data: x\n", .chunk "\n"]) } :=
  POST_stream_relay sampleRuntime "sk-test" _
    (.obj [("model", .str "claude"), ("messages", .arr []), ("stream", .bool true)])
    { ok := true, status := 200, statusText := "OK",
      body := some [.chunk "data: x\n", .chunk "\n"], json := .error "body is not JSON" }
    (by decide) (by decide) (by decide) (fun _ _ => rfl)

/-! ## Lines of a text -/

theorem splitNewline_cons (c : Char) (s : List Char) :
    splitNewline (c :: s) =
      if c = '\n' then [] :: splitNewline s else pushHead c (splitNewline s) := by
  rw [splitNewline]
  split
  · rfl
  · cases h : splitNewline s <;> simp [pushHead]

theorem splitNewline_ne_nil (s : List Char) : splitNewline s ≠ [] := by
  cases s with
  | nil => simp [splitNewline]
  | cons c s =>
    rw [splitNewline_cons]
    split
    · simp
    · cases splitNewline s <;> simp [pushHead]

theorem pushHead_append (c : Char) (l r : List (List Char)) (h : l ≠ []) :
    pushHead c (l ++ r) = pushHead c l ++ r := by
  cases l with
  | nil => exact absurd rfl h
  | cons a l => rfl

theorem pushHead_dropLast (c : Char) (l : List (List Char)) (h : l.dropLast ≠ []) :
    (pushHead c l).dropLast = pushHead c l.dropLast := by
  match l, h with
  | a :: b :: l, _ => rfl

theorem pushHead_getLast (c : Char) (l : List (List Char)) (h : l.dropLast ≠ []) :
    (pushHead c l).getLast?.getD [] = l.getLast?.getD [] := by
  match l, h with
  | a :: b :: l, _ => simp [pushHead, List.getLast?_cons_cons]

theorem splitNewline_of_not_mem (s : List Char) (h : '\n' ∉ s) : splitNewline s = [s] := by
  induction s with
  | nil => rfl
  | cons c s ih =>
    simp only [List.mem_cons, not_or] at h
    rw [splitNewline_cons, if_neg (Ne.symm h.1), ih h.2]
    rfl

theorem not_mem_of_mem_splitNewline (s : List Char) :
    ∀ seg ∈ splitNewline s, '\n' ∉ seg := by
  induction s with
  | nil => simp [splitNewline]
  | cons c s ih =>
    rw [splitNewline_cons]
    split
    · intro seg hseg
      rcases List.mem_cons.1 hseg with rfl | h
      · simp
      · exact ih seg h
    · rename_i hc
      intro seg hseg
      cases hs : splitNewline s with
      | nil => exact absurd hs (splitNewline_ne_nil s)
      | cons a l =>
        rw [hs] at hseg ih
        rcases List.mem_cons.1 hseg with rfl | h
        · have := ih a (List.mem_cons_self _ _)
          simp only [List.mem_cons, not_or]
          exact ⟨fun e => hc e.symm, this⟩
        · exact ih seg (List.mem_cons_of_mem _ h)

/-- Splitting a concatenation: the complete segments of the first part, then the
split of what the first part held back followed by the second part. -/
theorem splitNewline_append (s t : List Char) :
    splitNewline (s ++ t) =
      (splitNewline s).dropLast ++ splitNewline ((splitNewline s).getLast?.getD [] ++ t) := by
  induction s with
  | nil => simp [splitNewline]
  | cons c s ih =>
    rw [List.cons_append, splitNewline_cons, splitNewline_cons]
    by_cases hc : c = '\n'
    · simp only [hc, ↓reduceIte]
      cases hs : splitNewline s with
      | nil => exact absurd hs (splitNewline_ne_nil s)
      | cons a l =>
        rw [ih, hs]
        simp [List.dropLast, List.getLast?_cons_cons]
    · simp only [hc, ↓reduceIte]
      rw [ih]
      by_cases hd : (splitNewline s).dropLast = []
      · have hone : splitNewline s = [(splitNewline s).getLast?.getD []] := by
          cases hs : splitNewline s with
          | nil => exact absurd hs (splitNewline_ne_nil s)
          | cons a l =>
            rw [hs] at hd
            cases l with
            | nil => simp
            | cons b l => simp at hd
        rw [hd, List.nil_append]
        generalize (splitNewline s).getLast?.getD [] = r at hone
        rw [hone]
        simp only [pushHead, List.dropLast_single, List.getLast?_singleton, Option.getD_some,
          List.nil_append, List.cons_append]
        rw [splitNewline_cons, if_neg hc]
        cases splitNewline (r ++ t) <;> rfl
      · rw [pushHead_append _ _ _ hd, pushHead_dropLast _ _ hd, pushHead_getLast _ _ hd]

theorem remainder_data (s : String) :
    (remainder s).data = (splitNewline s.data).getLast?.getD [] := by
  simp only [remainder, split, List.getLast?_map]
  cases (splitNewline s.data).getLast? <;> rfl

theorem remainder_not_mem (s : String) : '\n' ∉ (remainder s).data := by
  rw [remainder_data]
  cases h : (splitNewline s.data).getLast? with
  | none => simp
  | some seg => exact not_mem_of_mem_splitNewline _ _ (List.mem_of_getLast?_eq_some h)

theorem completeLines_append (a b : String) :
    completeLines (a ++ b) = completeLines a ++ completeLines (remainder a ++ b) := by
  simp only [completeLines, split, String.data_append, remainder_data]
  rw [splitNewline_append, List.map_append, List.dropLast_append_of_ne_nil, List.map_dropLast]
  simpa using splitNewline_ne_nil _

theorem remainder_append (a b : String) :
    remainder (a ++ b) = remainder (remainder a ++ b) := by
  apply String.ext
  simp only [remainder_data, String.data_append]
  rw [splitNewline_append, List.getLast?_append_of_ne_nil _ (splitNewline_ne_nil _)]

theorem completeLines_of_not_mem (b : String) (h : '\n' ∉ b.data) : completeLines b = [] := by
  simp [completeLines, split, splitNewline_of_not_mem _ h]

theorem remainder_of_not_mem (b : String) (h : '\n' ∉ b.data) : remainder b = b := by
  apply String.ext
  rw [remainder_data, splitNewline_of_not_mem _ h]
  rfl

/-! ## The read loop on a body whose reads succeed -/

theorem startsWith_append (p s : String) : startsWith (p ++ s) p = true := by
  simp [startsWith, String.data_append]

theorem slice_append (p s : String) (n : Nat) (h : p.data.length = n) :
    slice (p ++ s) n = s := by
  apply String.ext
  simp [slice, String.data_append, ← h]

theorem eq_append_slice {line p : String} (h : startsWith line p = true) :
    line = p ++ slice line p.data.length := by
  apply String.ext
  simp only [startsWith, List.isPrefixOf_iff_prefix] at h
  obtain ⟨t, ht⟩ := h
  simp [slice, String.data_append, ← ht]

theorem isDone_iff (line : String) : isDone line = true ↔ line = "data: [DONE]" := by
  constructor
  · intro h
    simp only [isDone, Bool.and_eq_true, decide_eq_true_eq] at h
    have := eq_append_slice h.1
    have h6 : ("data: " : String).data.length = 6 := by decide
    rw [h6, h.2] at this
    rw [this]
    decide
  · rintro rfl
    decide

theorem lineCalls_of_isDone (rt : Runtime) {line : String} (h : isDone line = true) :
    lineCalls rt line = [] := by
  simp only [isDone, Bool.and_eq_true, decide_eq_true_eq] at h
  simp [lineCalls, h.1, h.2]

theorem processLines_cons (rt : Runtime) (line : String) (rest : List String) :
    processLines rt (line :: rest) =
      if isDone line = true then [] else lineCalls rt line ++ processLines rt rest := by
  rw [processLines]
  by_cases hp : startsWith line "data: " = true
  · by_cases hd : slice line 6 = "[DONE]"
    · simp [isDone, hp, hd]
    · simp [isDone, lineCalls, hp, hd]
  · simp [isDone, lineCalls, hp]

/-- In a pass where no line after a sentinel would cause an invocation, the `for`
loop makes the invocations of its lines, one after the other. -/
theorem processLines_eq_flatMap (rt : Runtime) (lines : List String)
    (h : lines.Pairwise (fun d l => isDone d = true → lineCalls rt l = [])) :
    processLines rt lines = lines.flatMap (lineCalls rt) := by
  induction lines with
  | nil => rfl
  | cons line rest ih =>
    rw [List.pairwise_cons] at h
    rw [processLines_cons, List.flatMap_cons]
    by_cases hd : isDone line = true
    · rw [if_pos hd, lineCalls_of_isDone rt hd, List.nil_append]
      symm
      rw [List.flatMap_eq_nil_iff]
      exact fun l hl => h.1 l hl hd
    · rw [if_neg hd, ih h.2]

theorem readLoop_chunks_append (rt : Runtime) (chunks : List String) (tail : BodyStream)
    (buffer : String) (calls : List Json) :
    readLoop rt (chunks.map .chunk ++ tail) buffer calls =
      readLoop rt tail (runChunks rt chunks (buffer, calls)).1
        (runChunks rt chunks (buffer, calls)).2 := by
  induction chunks generalizing buffer calls with
  | nil => rfl
  | cons c cs ih =>
    simp only [List.map_cons, List.cons_append, readLoop, runChunks]
    exact ih _ _

theorem runChunks_calls (rt : Runtime) (chunks : List String) (buffer : String)
    (calls : List Json) :
    (runChunks rt chunks (buffer, calls)).2 =
      calls ++ (runChunks rt chunks (buffer, [])).2 ∧
    (runChunks rt chunks (buffer, calls)).1 = (runChunks rt chunks (buffer, [])).1 := by
  induction chunks generalizing buffer calls with
  | nil => simp [runChunks]
  | cons c cs ih =>
    simp only [runChunks, List.nil_append]
    rw [(ih _ (calls ++ _)).1, (ih _ (calls ++ _)).2, (ih _ (processLines _ _)).1,
      (ih _ (processLines _ _)).2, List.append_assoc]
    exact ⟨rfl, rfl⟩

/-- The state after the chunks, when no complete line after a sentinel would cause an
invocation: the buffer holds what follows the last newline, and the invocations are
those of the complete lines of the whole text, in order. -/
theorem runChunks_eq (rt : Runtime) (chunks : List String) (buffer : String)
    (calls : List Json) (hb : '\n' ∉ buffer.data)
    (h : (completeLines (buffer ++ joinChunks chunks)).Pairwise
      (fun d l => isDone d = true → lineCalls rt l = [])) :
    runChunks rt chunks (buffer, calls) =
      (remainder (buffer ++ joinChunks chunks),
        calls ++ (completeLines (buffer ++ joinChunks chunks)).flatMap (lineCalls rt)) := by
  induction chunks generalizing buffer calls with
  | nil =>
    simp [runChunks, joinChunks, completeLines_of_not_mem _ hb, remainder_of_not_mem _ hb]
  | cons c cs ih =>
    have e : buffer ++ joinChunks (c :: cs) = (buffer ++ c) ++ joinChunks cs := by
      simp [joinChunks, String.append_assoc]
    rw [e, completeLines_append, List.pairwise_append] at h
    rw [runChunks, ih _ _ (remainder_not_mem _) h.2.1, e,
      completeLines_append (buffer ++ c) (joinChunks cs),
      ← remainder_append, processLines_eq_flatMap rt _ h.1, List.flatMap_append,
      List.append_assoc]

/-! ## The Stream Consumer on a streaming response -/

theorem streams_eventStream (body : BodyStream) : Streams (eventStream body) body :=
  ⟨rfl, rfl, "text/event-stream", rfl, by decide⟩

theorem attempt_of_streams (rt : Runtime) (fetch : FetchCall → Except String FetchResponse)
    (prompt modelId : String) (messages files : List Json) (extendedThinking : Bool)
    (response : FetchResponse) (body : BodyStream)
    (hf : fetch (requestCall prompt modelId messages files extendedThinking) = .ok response)
    (hs : Streams response body) :
    streamResponseFromClaude.attempt rt fetch prompt modelId messages files extendedThinking
      = readLoop rt body "" [] := by
  obtain ⟨hok, hbody, ct, hct, hinc⟩ := hs
  simp [streamResponseFromClaude.attempt, hf, hok, hbody, hct, hinc]

/-! ## Streams of content-delta frames -/

theorem splitNewline_line (s t : List Char) (h : '\n' ∉ s) :
    splitNewline (s ++ '\n' :: t) = s :: splitNewline t := by
  induction s with
  | nil => simp [splitNewline_cons]
  | cons c s ih =>
    simp only [List.mem_cons, not_or] at h
    rw [List.cons_append, splitNewline_cons, if_neg (Ne.symm h.1), ih h.2]
    rfl

theorem completeLines_line (l rest : String) (h : '\n' ∉ l.data) :
    completeLines (l ++ "\n" ++ rest) = l :: completeLines rest := by
  have e : (l ++ "\n" ++ rest).data = l.data ++ '\n' :: rest.data := by
    simp [String.data_append]
  simp only [completeLines, split, e, splitNewline_line _ _ h, List.map_cons]
  rw [List.dropLast_cons_of_ne_nil]
  simpa using splitNewline_ne_nil _

theorem completeLines_frame (payload rest : String) (h : '\n' ∉ payload.data) :
    completeLines (frame payload ++ rest) =
      ("data: " ++ payload) :: "" :: completeLines rest := by
  have e : frame payload ++ rest = ("data: " ++ payload) ++ "\n" ++ ("" ++ "\n" ++ rest) := by
    apply String.ext
    simp [frame, String.data_append]
  have h1 : '\n' ∉ ("data: " ++ payload).data := by
    simp only [String.data_append, List.mem_append, not_or]
    exact ⟨by decide, h⟩
  rw [e, completeLines_line _ _ h1, completeLines_line _ _ (by decide)]

theorem completeLines_frames (payloads : List String) (rest : String)
    (h : ∀ p ∈ payloads, '\n' ∉ p.data) :
    completeLines (joinChunks (payloads.map frame) ++ rest) =
      payloads.flatMap (fun p => ["data: " ++ p, ""]) ++ completeLines rest := by
  induction payloads with
  | nil =>
    have : joinChunks ([].map frame) ++ rest = rest := by
      apply String.ext
      simp [joinChunks, String.data_append]
    rw [this]
    rfl
  | cons p ps ih =>
    have e : joinChunks ((p :: ps).map frame) ++ rest =
        frame p ++ (joinChunks (ps.map frame) ++ rest) := by
      simp [joinChunks, String.append_assoc]
    rw [e, completeLines_frame _ _ (h p (List.mem_cons_self _ _)),
      ih (fun q hq => h q (List.mem_cons_of_mem _ hq))]
    simp

theorem lineCalls_data (rt : Runtime) (payload : String) (h : payload ≠ "[DONE]") :
    lineCalls rt ("data: " ++ payload) = frameCalls rt payload := by
  simp [lineCalls, startsWith_append, slice_append "data: " payload 6 (by decide), h]

theorem isDone_data (payload : String) (h : payload ≠ "[DONE]") :
    isDone ("data: " ++ payload) = false := by
  simp [isDone, slice_append "data: " payload 6 (by decide), h]

theorem lineCalls_empty (rt : Runtime) : lineCalls rt "" = [] := by
  have : startsWith "" "data: " = false := by decide
  simp [lineCalls, this]

theorem deltaPayload_ne_done (quoted : String) : deltaPayload quoted ≠ "[DONE]" := by
  intro h
  have h2 := congrArg (fun s => s.data.head?) h
  simp [deltaPayload, String.data_append] at h2

theorem frameCalls_delta (rt : Runtime) (payload t : String)
    (hp : rt.parse payload = some (deltaObject t)) (ht : t ≠ "") :
    frameCalls rt payload = [.str t] := by
  simp [frameCalls, hp, deltaObject, getProp, Json.member, truthy, ht]

theorem pairwise_of_not_done (rt : Runtime) (lines : List String)
    (h : ∀ l ∈ lines, isDone l = false) :
    lines.Pairwise (fun d l => isDone d = true → lineCalls rt l = []) := by
  induction lines with
  | nil => exact List.Pairwise.nil
  | cons a l ih =>
    refine List.Pairwise.cons ?_ (ih (fun x hx => h x (List.mem_cons_of_mem _ hx)))
    intro x _ hd
    rw [h a (List.mem_cons_self _ _)] at hd
    exact absurd hd (by decide)

theorem fullResponse_strings (rt : Runtime) (ts : List String) :
    fullResponse rt (ts.map .str) = joinChunks ts := by
  have key : ∀ (acc : String), (ts.map Json.str).foldl
      (fun acc chunk => acc ++ toStr rt chunk) acc = acc ++ joinChunks ts := by
    induction ts with
    | nil => intro acc; simp [joinChunks]
    | cons t ts ih =>
      intro acc
      simp only [List.map_cons, List.foldl_cons, ih, joinChunks, toStr, String.append_assoc]
  rw [fullResponse, key]
  simp

/-- On a streaming response whose reads all succeed, when no complete line after a
sentinel would cause an invocation, the consumer makes the invocations of the complete
lines of the whole text, in order, and resolves. -/
theorem streamResponseFromClaude_of_chunks (rt : Runtime)
    (fetch : FetchCall → Except String FetchResponse)
    (prompt modelId : String) (messages files : List Json) (extendedThinking : Bool)
    (response : FetchResponse) (chunks : List String)
    (hf : fetch (requestCall prompt modelId messages files extendedThinking) = .ok response)
    (hs : Streams response (chunks.map .chunk))
    (hq : (completeLines (joinChunks chunks)).Pairwise
      (fun d l => isDone d = true → lineCalls rt l = [])) :
    streamResponseFromClaude rt fetch prompt modelId messages files extendedThinking =
      { calls := (completeLines (joinChunks chunks)).flatMap (lineCalls rt)
        result := .ok none } := by
  have e : ("" : String) ++ joinChunks chunks = joinChunks chunks := by
    apply String.ext; simp [String.data_append]
  have h1 := readLoop_chunks_append rt chunks [] "" []
  rw [List.append_nil, runChunks_eq rt chunks "" [] (by decide) (by rw [e]; exact hq), e] at h1
  simp only [streamResponseFromClaude, attempt_of_streams rt fetch prompt modelId messages
    files extendedThinking response _ hf hs, h1, readLoop, List.nil_append]

theorem completeLines_deltaStream (quote : String → String) (ts : List String)
    (hq : ∀ t ∈ ts, '\n' ∉ (quote t).data) :
    completeLines (deltaStream quote ts) =
      ts.flatMap (fun t => ["data: " ++ deltaPayload (quote t), ""])
        ++ ["data: [DONE]", ""] := by
  have hp : ∀ p ∈ ts.map (fun t => deltaPayload (quote t)), '\n' ∉ p.data := by
    intro p hp
    obtain ⟨t, ht, rfl⟩ := List.mem_map.1 hp
    have := hq t ht
    simp only [deltaPayload, String.data_append, List.mem_append, not_or]
    exact ⟨⟨by decide, this⟩, by decide⟩
  have e : ts.map (fun t => frame (deltaPayload (quote t))) =
      (ts.map (fun t => deltaPayload (quote t))).map frame := by
    simp [List.map_map]
  have hdone : completeLines (frame "[DONE]") = ["data: [DONE]", ""] := by decide
  rw [deltaStream, e, completeLines_frames _ _ hp, hdone, List.flatMap_map]

/-- C5: for every sequence of non-empty fragments `ts`, on any engine whose
`JSON.parse` reads each frame payload (a text without newline) as the content-delta
object of its fragment, a stream made of the frames of `ts` in order followed by
`data: [DONE]\n\n`, however it is cut into chunks, makes `streamResponseFromClaude`
invoke the callback exactly `ts.length` times, with the fragments in order; the text
the caller accumulates is their concatenation, and the call resolves. -/
theorem streamResponseFromClaude_delta_frames (rt : Runtime)
    (fetch : FetchCall → Except String FetchResponse)
    (prompt modelId : String) (messages files : List Json) (extendedThinking : Bool)
    (response : FetchResponse) (chunks : List String)
    (quote : String → String) (ts : List String)
    (hf : fetch (requestCall prompt modelId messages files extendedThinking) = .ok response)
    (hs : Streams response (chunks.map .chunk))
    (htext : joinChunks chunks = deltaStream quote ts)
    (hne : ∀ t ∈ ts, t ≠ "")
    (hq : ∀ t ∈ ts, '\n' ∉ (quote t).data ∧
      rt.parse (deltaPayload (quote t)) = some (deltaObject t)) :
    (streamResponseFromClaude rt fetch prompt modelId messages files extendedThinking).calls
        = ts.map .str ∧
    (streamResponseFromClaude rt fetch prompt modelId messages files
        extendedThinking).calls.length = ts.length ∧
    fullResponse rt (streamResponseFromClaude rt fetch prompt modelId messages files
        extendedThinking).calls = joinChunks ts ∧
    (streamResponseFromClaude rt fetch prompt modelId messages files extendedThinking).result
        = .ok none := by
  have hlines := completeLines_deltaStream quote ts (fun t ht => (hq t ht).1)
  have hquiet : (completeLines (joinChunks chunks)).Pairwise
      (fun d l => isDone d = true → lineCalls rt l = []) := by
    rw [htext, hlines, List.pairwise_append]
    refine ⟨pairwise_of_not_done rt _ ?_, ?_, ?_⟩
    · intro l hl
      obtain ⟨t, _, ht⟩ := List.mem_flatMap.1 hl
      simp only [List.mem_cons, List.mem_singleton, List.not_mem_nil, or_false] at ht
      rcases ht with rfl | rfl
      · exact isDone_data _ (deltaPayload_ne_done _)
      · decide
    · refine List.Pairwise.cons ?_ (List.pairwise_singleton _ _)
      intro l hl _
      rw [List.mem_singleton.1 hl]
      exact lineCalls_empty rt
    · intro a ha b _ hd
      obtain ⟨t, _, ht⟩ := List.mem_flatMap.1 ha
      simp only [List.mem_cons, List.mem_singleton, List.not_mem_nil, or_false] at ht
      rcases ht with rfl | rfl
      · rw [isDone_data _ (deltaPayload_ne_done _)] at hd
        exact absurd hd (by decide)
      · exact absurd hd (by decide)
  have hcalls : (completeLines (joinChunks chunks)).flatMap (lineCalls rt) = ts.map .str := by
    rw [htext, hlines, List.flatMap_append]
    have hd : (["data: [DONE]", ""] : List String).flatMap (lineCalls rt) = [] := by
      simp [List.flatMap_cons, lineCalls_of_isDone rt ((isDone_iff _).2 rfl),
        lineCalls_empty]
    rw [hd, List.append_nil]
    clear hlines hquiet htext
    induction ts with
    | nil => rfl
    | cons t ts ih =>
      have h1 := hq t (List.mem_cons_self _ _)
      simp only [List.flatMap_cons, List.cons_append, List.nil_append, List.map_cons,
        lineCalls_empty, lineCalls_data rt _ (deltaPayload_ne_done _),
        frameCalls_delta rt _ t h1.2 (hne t (List.mem_cons_self _ _))]
      rw [ih (fun x hx => hne x (List.mem_cons_of_mem _ hx))
        (fun x hx => hq x (List.mem_cons_of_mem _ hx))]
  rw [streamResponseFromClaude_of_chunks rt fetch prompt modelId messages files
    extendedThinking response chunks hf hs hquiet, hcalls]
  exact ⟨rfl, by simp, fullResponse_strings rt ts, rfl⟩

/-- C5, witness: the fragments "A" and "B", the stream cut in the middle of a frame
and in the middle of the sentinel: two invocations, "A" then "B", and "AB". -/
theorem streamResponseFromClaude_delta_frames_witness :
    (streamResponseFromClaude sampleRuntime
        (fun _ => .ok (eventStream
          [.chunk "data: \x7b\"type\":\"content_block_de",
           .chunk "lta\",\"delta\":\x7b\"text\":\"A\"\x7d\x7d\n\ndata: \x7b\"type\":\"content_block_delta\",\"delta\":\x7b\"text\":\"B\"\x7d\x7d\n\ndata: [DO",
           .chunk "NE]\n\n"]))
        "hi" "claude-3-5-sonnet-20240620" [] [] false).calls = [.str "A", .str "B"] ∧
    (streamResponseFromClaude sampleRuntime
        (fun _ => .ok (eventStream
          [.chunk "data: \x7b\"type\":\"content_block_de",
           .chunk "lta\",\"delta\":\x7b\"text\":\"A\"\x7d\x7d\n\ndata: \x7b\"type\":\"content_block_delta\",\"delta\":\x7b\"text\":\"B\"\x7d\x7d\n\ndata: [DO",
           .chunk "NE]\n\n"]))
        "hi" "claude-3-5-sonnet-20240620" [] [] false).calls.length = 2 ∧
    fullResponse sampleRuntime (streamResponseFromClaude sampleRuntime
        (fun _ => .ok (eventStream
          [.chunk "data: \x7b\"type\":\"content_block_de",
           .chunk "lta\",\"delta\":\x7b\"text\":\"A\"\x7d\x7d\n\ndata: \x7b\"type\":\"content_block_delta\",\"delta\":\x7b\"text\":\"B\"\x7d\x7d\n\ndata: [DO",
           .chunk "NE]\n\n"]))
        "hi" "claude-3-5-sonnet-20240620" [] [] false).calls = "AB" ∧
    (streamResponseFromClaude sampleRuntime
        (fun _ => .ok (eventStream
          [.chunk "data: \x7b\"type\":\"content_block_de",
           .chunk "lta\",\"delta\":\x7b\"text\":\"A\"\x7d\x7d\n\ndata: \x7b\"type\":\"content_block_delta\",\"delta\":\x7b\"text\":\"B\"\x7d\x7d\n\ndata: [DO",
           .chunk "NE]\n\n"]))
        "hi" "claude-3-5-sonnet-20240620" [] [] false).result = .ok none :=
  streamResponseFromClaude_delta_frames sampleRuntime _ "hi" "claude-3-5-sonnet-20240620"
    [] [] false (eventStream _)
    ["data: \x7b\"type\":\"content_block_de",
     "lta\",\"delta\":\x7b\"text\":\"A\"\x7d\x7d\n\ndata: \x7b\"type\":\"content_block_delta\",\"delta\":\x7b\"text\":\"B\"\x7d\x7d\n\ndata: [DO",
     "NE]\n\n"]
    (fun t => "\"" ++ t ++ "\"") ["A", "B"] rfl (streams_eventStream _)
    (by decide) (by decide) (by decide)

/-! ## What the consumer resolves to, the sentinel, chunk boundaries -/

theorem readLoop_result_ok (rt : Runtime) (body : BodyStream) (buffer : String)
    (calls : List Json) (v : Option Json)
    (h : (readLoop rt body buffer calls).result = .ok v) : v = none := by
  induction body generalizing buffer calls with
  | nil =>
    simp only [readLoop, Except.ok.injEq] at h
    exact h.symm
  | cons r rest ih =>
    cases r with
    | chunk text => exact ih _ _ h
    | fails m => simp [readLoop] at h

theorem attempt_result_ok (rt : Runtime) (fetch : FetchCall → Except String FetchResponse)
    (prompt modelId : String) (messages files : List Json) (extendedThinking : Bool)
    (v : Option Json)
    (h : (streamResponseFromClaude.attempt rt fetch prompt modelId messages files
      extendedThinking).result = .ok v) : v = none := by
  unfold streamResponseFromClaude.attempt at h
  split at h
  · simp at h
  · split at h
    · split at h <;> simp at h
    · split at h
      · simp at h
      · split at h
        · simp at h
        · exact readLoop_result_ok rt _ _ _ v h

theorem streamResponseFromClaude_result (rt : Runtime)
    (fetch : FetchCall → Except String FetchResponse)
    (prompt modelId : String) (messages files : List Json) (extendedThinking : Bool) :
    (streamResponseFromClaude rt fetch prompt modelId messages files extendedThinking).result
      = (streamResponseFromClaude.attempt rt fetch prompt modelId messages files
          extendedThinking).result := by
  unfold streamResponseFromClaude
  cases hr : (streamResponseFromClaude.attempt rt fetch prompt modelId messages files
    extendedThinking).result <;> simp [hr]

/-- C6, as amended: on normal termination (the call is not rejected)
`streamResponseFromClaude` resolves to no value (`undefined`): the accumulated text
is not its result, it exists only as the fragments passed to the callback, which the
caller concatenates. -/
theorem streamResponseFromClaude_resolves_undefined (rt : Runtime)
    (fetch : FetchCall → Except String FetchResponse)
    (prompt modelId : String) (messages files : List Json) (extendedThinking : Bool)
    (h : ∀ m, (streamResponseFromClaude rt fetch prompt modelId messages files
      extendedThinking).result ≠ .error m) :
    (streamResponseFromClaude rt fetch prompt modelId messages files extendedThinking).result
      = .ok none := by
  rw [streamResponseFromClaude_result] at h ⊢
  cases hr : (streamResponseFromClaude.attempt rt fetch prompt modelId messages files
    extendedThinking).result with
  | error m => exact absurd hr (h m)
  | ok v =>
    rw [attempt_result_ok rt fetch prompt modelId messages files extendedThinking v hr]

/-- C6, witness: a stream of one frame terminates normally and resolves to `undefined`. -/
theorem streamResponseFromClaude_resolves_undefined_witness :
    (streamResponseFromClaude sampleRuntime
        (fun _ => .ok (eventStream
          [.chunk "data: \x7b\"type\":\"content_block_delta\",\"delta\":\x7b\"text\":\"A\"\x7d\x7d\n\n"]))
        "hi" "claude-3-5-sonnet-20240620" [] [] false).result = .ok none :=
  streamResponseFromClaude_resolves_undefined sampleRuntime
    (fun _ => .ok (eventStream
      [.chunk "data: \x7b\"type\":\"content_block_delta\",\"delta\":\x7b\"text\":\"A\"\x7d\x7d\n\n"]))
    "hi" "claude-3-5-sonnet-20240620" [] [] false
    (fun m h => by
      have h2 : (Except.ok none : Except String (Option Json)) = Except.error m := h
      cases h2)

/-- C6, counterexample: on the stream of the single fragment "A" the callback receives
"A", the caller accumulates "A", and the call resolves to `undefined`, not to "A". -/
theorem streamResponseFromClaude_result_not_text :
    (streamResponseFromClaude sampleRuntime
        (fun _ => .ok (eventStream
          [.chunk "data: \x7b\"type\":\"content_block_delta\",\"delta\":\x7b\"text\":\"A\"\x7d\x7d\n\n"]))
        "hi" "claude-3-5-sonnet-20240620" [] [] false).calls = [.str "A"] ∧
    fullResponse sampleRuntime (streamResponseFromClaude sampleRuntime
        (fun _ => .ok (eventStream
          [.chunk "data: \x7b\"type\":\"content_block_delta\",\"delta\":\x7b\"text\":\"A\"\x7d\x7d\n\n"]))
        "hi" "claude-3-5-sonnet-20240620" [] [] false).calls = "A" ∧
    (streamResponseFromClaude sampleRuntime
        (fun _ => .ok (eventStream
          [.chunk "data: \x7b\"type\":\"content_block_delta\",\"delta\":\x7b\"text\":\"A\"\x7d\x7d\n\n"]))
        "hi" "claude-3-5-sonnet-20240620" [] [] false).result = .ok none ∧
    (streamResponseFromClaude sampleRuntime
        (fun _ => .ok (eventStream
          [.chunk "data: \x7b\"type\":\"content_block_delta\",\"delta\":\x7b\"text\":\"A\"\x7d\x7d\n\n"]))
        "hi" "claude-3-5-sonnet-20240620" [] [] false).result ≠ .ok (some (.str "A")) := by
  refine ⟨by decide, by decide, rfl, ?_⟩
  intro h
  rw [streamResponseFromClaude_result] at h
  exact absurd (attempt_result_ok _ _ _ _ _ _ _ _ h) (by simp)

/-- C7, the code at the failing input: the sentinel line arrives complete in the first
chunk and is processed there; the second chunk is read all the same, and the
content-delta frame it carries is delivered to the callback. -/
theorem streamResponseFromClaude_reads_after_done :
    completeLines "data: [DONE]\n\n" = ["data: [DONE]", ""] ∧
    (streamResponseFromClaude sampleRuntime
        (fun _ => .ok (eventStream
          [.chunk "data: [DONE]\n\n",
           .chunk "data: \x7b\"type\":\"content_block_delta\",\"delta\":\x7b\"text\":\"B\"\x7d\x7d\n\n"]))
        "hi" "claude-3-5-sonnet-20240620" [] [] false).calls = [.str "B"] := by
  decide

theorem pairwise_of_no_done_line (rt : Runtime) (lines : List String)
    (h : "data: [DONE]" ∉ lines) :
    lines.Pairwise (fun d l => isDone d = true → lineCalls rt l = []) := by
  apply pairwise_of_not_done
  intro l hl
  cases hd : isDone l with
  | false => rfl
  | true => exact absurd ((isDone_iff l).1 hd ▸ hl) h

/-- C8: chunk-boundary independence. For every stream text none of whose
newline-terminated lines is `data: [DONE]`, and every two ways of cutting it into
chunks, `streamResponseFromClaude` makes the same sequence of callback invocations:
the one the line loop makes on the newline-terminated lines of the whole text, in
order; both runs resolve. -/
theorem streamResponseFromClaude_chunk_independent (rt : Runtime)
    (fetch fetch' : FetchCall → Except String FetchResponse)
    (prompt modelId : String) (messages files : List Json) (extendedThinking : Bool)
    (response response' : FetchResponse) (text : String) (chunks chunks' : List String)
    (hf : fetch (requestCall prompt modelId messages files extendedThinking) = .ok response)
    (hs : Streams response (chunks.map .chunk))
    (hf' : fetch' (requestCall prompt modelId messages files extendedThinking)
      = .ok response')
    (hs' : Streams response' (chunks'.map .chunk))
    (ht : joinChunks chunks = text) (ht' : joinChunks chunks' = text)
    (hno : "data: [DONE]" ∉ completeLines text) :
    (streamResponseFromClaude rt fetch prompt modelId messages files extendedThinking).calls
      = (streamResponseFromClaude rt fetch' prompt modelId messages files
          extendedThinking).calls ∧
    (streamResponseFromClaude rt fetch prompt modelId messages files extendedThinking).calls
      = processLines rt (completeLines text) ∧
    (streamResponseFromClaude rt fetch prompt modelId messages files extendedThinking).result
      = .ok none ∧
    (streamResponseFromClaude rt fetch' prompt modelId messages files extendedThinking).result
      = .ok none := by
  have hq := pairwise_of_no_done_line rt _ hno
  rw [streamResponseFromClaude_of_chunks rt fetch prompt modelId messages files
      extendedThinking response chunks hf hs (by rw [ht]; exact hq),
    streamResponseFromClaude_of_chunks rt fetch' prompt modelId messages files
      extendedThinking response' chunks' hf' hs' (by rw [ht']; exact hq),
    ht, ht', processLines_eq_flatMap rt _ hq]
  exact ⟨rfl, rfl, rfl, rfl⟩

/-- C8, witness: one text cut in two ways, inside a frame and inside two frames. -/
theorem streamResponseFromClaude_chunk_independent_witness :
    (streamResponseFromClaude sampleRuntime
        (fun _ => .ok (eventStream
          [.chunk "data: \x7b\"type\":\"content_block_delta\",\"del",
           .chunk "ta\":\x7b\"text\":\"A\"\x7d\x7d\n\nevent: ping\ndata: \x7b\"type\":\"content_block_delta\",\"delta\":\x7b\"text\":\"B\"\x7d\x7d\n"]))
        "hi" "claude-3-5-sonnet-20240620" [] [] false).calls
      = (streamResponseFromClaude sampleRuntime
        (fun _ => .ok (eventStream
          [.chunk "da",
           .chunk "ta: \x7b\"type\":\"content_block_delta\",\"delta\":\x7b\"text\":\"A\"\x7d\x7d\n\nevent: ping\nda",
           .chunk "ta: \x7b\"type\":\"content_block_delta\",\"delta\":\x7b\"text\":\"B\"\x7d\x7d",
           .chunk "\n"]))
        "hi" "claude-3-5-sonnet-20240620" [] [] false).calls ∧
    (streamResponseFromClaude sampleRuntime
        (fun _ => .ok (eventStream
          [.chunk "data: \x7b\"type\":\"content_block_delta\",\"del",
           .chunk "ta\":\x7b\"text\":\"A\"\x7d\x7d\n\nevent: ping\ndata: \x7b\"type\":\"content_block_delta\",\"delta\":\x7b\"text\":\"B\"\x7d\x7d\n"]))
        "hi" "claude-3-5-sonnet-20240620" [] [] false).calls = [.str "A", .str "B"] :=
  have h := streamResponseFromClaude_chunk_independent sampleRuntime
    (fun _ => .ok (eventStream
      [.chunk "data: \x7b\"type\":\"content_block_delta\",\"del",
       .chunk "ta\":\x7b\"text\":\"A\"\x7d\x7d\n\nevent: ping\ndata: \x7b\"type\":\"content_block_delta\",\"delta\":\x7b\"text\":\"B\"\x7d\x7d\n"]))
    (fun _ => .ok (eventStream
      [.chunk "da",
       .chunk "ta: \x7b\"type\":\"content_block_delta\",\"delta\":\x7b\"text\":\"A\"\x7d\x7d\n\nevent: ping\nda",
       .chunk "ta: \x7b\"type\":\"content_block_delta\",\"delta\":\x7b\"text\":\"B\"\x7d\x7d",
       .chunk "\n"]))
    "hi" "claude-3-5-sonnet-20240620" [] [] false (eventStream _) (eventStream _)
    "data: \x7b\"type\":\"content_block_delta\",\"delta\":\x7b\"text\":\"A\"\x7d\x7d\n\nevent: ping\ndata: \x7b\"type\":\"content_block_delta\",\"delta\":\x7b\"text\":\"B\"\x7d\x7d\n"
    ["data: \x7b\"type\":\"content_block_delta\",\"del",
     "ta\":\x7b\"text\":\"A\"\x7d\x7d\n\nevent: ping\ndata: \x7b\"type\":\"content_block_delta\",\"delta\":\x7b\"text\":\"B\"\x7d\x7d\n"]
    ["da",
     "ta: \x7b\"type\":\"content_block_delta\",\"delta\":\x7b\"text\":\"A\"\x7d\x7d\n\nevent: ping\nda",
     "ta: \x7b\"type\":\"content_block_delta\",\"delta\":\x7b\"text\":\"B\"\x7d\x7d",
     "\n"]
    rfl (streams_eventStream _) rfl (streams_eventStream _)
    (by decide) (by decide) (by decide)
  ⟨h.1, h.2.1.trans (by decide)⟩

/-! ## Malformed frames -/

theorem remainder_newline (a : String) : remainder (a ++ "\n") = "" := by
  rw [remainder_append]
  apply String.ext
  have e : (remainder a ++ "\n").data = (remainder a).data ++ '\n' :: [] := by
    simp [String.data_append]
  rw [remainder_data, e, splitNewline_line _ _ (remainder_not_mem a)]
  rfl

theorem processLines_skip (rt : Runtime) (pre post : List String) (line : String)
    (hd : isDone line = false) (hl : lineCalls rt line = []) :
    processLines rt (pre ++ line :: post) = processLines rt (pre ++ post) := by
  induction pre with
  | nil => simp [processLines_cons, hd, hl]
  | cons a pre ih => simp only [List.cons_append, processLines_cons, ih]

/-- C9: a line `data: <payload>` whose payload `JSON.parse` rejects causes no callback
invocation and neither ends nor fails the stream. For every stream text holding such
a line, none of whose newline-terminated lines is `data: [DONE]`, and for every way
of cutting it into chunks, the invocations are those of the lines before it followed
by those of the lines after it, and the call resolves; and within any pass of the
line loop, the pass with the line equals the pass without it. -/
theorem streamResponseFromClaude_malformed_frame (rt : Runtime)
    (fetch : FetchCall → Except String FetchResponse)
    (prompt modelId : String) (messages files : List Json) (extendedThinking : Bool)
    (response : FetchResponse) (chunks : List String) (before payload after : String)
    (hf : fetch (requestCall prompt modelId messages files extendedThinking) = .ok response)
    (hs : Streams response (chunks.map .chunk))
    (ht : joinChunks chunks = before ++ ("data: " ++ payload ++ "\n") ++ after)
    (hb : before = "" ∨ ∃ a, before = a ++ "\n")
    (hp : rt.parse payload = none) (hn : '\n' ∉ payload.data)
    (hno : "data: [DONE]" ∉
      completeLines (before ++ ("data: " ++ payload ++ "\n") ++ after)) :
    (streamResponseFromClaude rt fetch prompt modelId messages files extendedThinking).calls
      = processLines rt (completeLines before) ++ processLines rt (completeLines after) ∧
    (streamResponseFromClaude rt fetch prompt modelId messages files extendedThinking).result
      = .ok none ∧
    ∀ pre post : List String,
      processLines rt (pre ++ ("data: " ++ payload) :: post) = processLines rt (pre ++ post) := by
  have hrem : remainder before = "" := by
    rcases hb with rfl | ⟨a, rfl⟩
    · decide
    · exact remainder_newline a
  have hline : '\n' ∉ ("data: " ++ payload).data := by
    simp only [String.data_append, List.mem_append, not_or]
    exact ⟨by decide, hn⟩
  have hlines : completeLines (before ++ ("data: " ++ payload ++ "\n") ++ after) =
      completeLines before ++ ("data: " ++ payload) :: completeLines after := by
    have e : before ++ ("data: " ++ payload ++ "\n") ++ after =
        before ++ (("data: " ++ payload) ++ "\n" ++ after) := by
      simp [String.append_assoc]
    have e2 : ("" : String) ++ (("data: " ++ payload) ++ "\n" ++ after) =
        ("data: " ++ payload) ++ "\n" ++ after := by
      apply String.ext; simp [String.data_append]
    rw [e, completeLines_append, hrem, e2, completeLines_line _ _ hline]
  rw [hlines] at hno
  have hpay : payload ≠ "[DONE]" := by
    rintro rfl
    exact hno (by simp)
  have hdone := isDone_data payload hpay
  have hcalls : lineCalls rt ("data: " ++ payload) = [] := by
    rw [lineCalls_data rt _ hpay]
    simp [frameCalls, hp]
  have hq := pairwise_of_no_done_line rt _ hno
  have hq2 := List.pairwise_append.1 hq
  have hq3 := (List.pairwise_cons.1 hq2.2.1).2
  rw [streamResponseFromClaude_of_chunks rt fetch prompt modelId messages files
      extendedThinking response chunks hf hs (by rw [ht, hlines]; exact hq),
    ht, hlines, processLines_eq_flatMap rt _ hq2.1, processLines_eq_flatMap rt _ hq3]
  refine ⟨?_, rfl, fun pre post => processLines_skip rt pre post _ hdone hcalls⟩
  simp [List.flatMap_append, List.flatMap_cons, hcalls]

/-- C9, witness: the line `data: {not valid json}` between two valid frames. -/
theorem streamResponseFromClaude_malformed_frame_witness :
    (streamResponseFromClaude sampleRuntime
        (fun _ => .ok (eventStream
          [.chunk "data: \x7b\"type\":\"content_block_delta\",\"delta\":\x7b\"text\":\"A\"\x7d\x7d\n\ndata: \x7bnot valid json\x7d\n\ndata: \x7b\"type\":\"content_block_delta\",\"delta\":\x7b\"text\":\"B\"\x7d\x7d\n\n"]))
        "hi" "claude-3-5-sonnet-20240620" [] [] false).calls = [.str "A", .str "B"] ∧
    (streamResponseFromClaude sampleRuntime
        (fun _ => .ok (eventStream
          [.chunk "data: \x7b\"type\":\"content_block_delta\",\"delta\":\x7b\"text\":\"A\"\x7d\x7d\n\ndata: \x7bnot valid json\x7d\n\ndata: \x7b\"type\":\"content_block_delta\",\"delta\":\x7b\"text\":\"B\"\x7d\x7d\n\n"]))
        "hi" "claude-3-5-sonnet-20240620" [] [] false).result = .ok none :=
  have h := streamResponseFromClaude_malformed_frame sampleRuntime
    (fun _ => .ok (eventStream
      [.chunk "data: \x7b\"type\":\"content_block_delta\",\"delta\":\x7b\"text\":\"A\"\x7d\x7d\n\ndata: \x7bnot valid json\x7d\n\ndata: \x7b\"type\":\"content_block_delta\",\"delta\":\x7b\"text\":\"B\"\x7d\x7d\n\n"]))
    "hi" "claude-3-5-sonnet-20240620" [] [] false (eventStream _)
    ["data: \x7b\"type\":\"content_block_delta\",\"delta\":\x7b\"text\":\"A\"\x7d\x7d\n\ndata: \x7bnot valid json\x7d\n\ndata: \x7b\"type\":\"content_block_delta\",\"delta\":\x7b\"text\":\"B\"\x7d\x7d\n\n"]
    "data: \x7b\"type\":\"content_block_delta\",\"delta\":\x7b\"text\":\"A\"\x7d\x7d\n\n"
    "\x7bnot valid json\x7d"
    "\ndata: \x7b\"type\":\"content_block_delta\",\"delta\":\x7b\"text\":\"B\"\x7d\x7d\n\n"
    rfl (streams_eventStream _) (by decide)
    (Or.inr ⟨"data: \x7b\"type\":\"content_block_delta\",\"delta\":\x7b\"text\":\"A\"\x7d\x7d\n", by decide⟩)
    (by decide) (by decide) (by decide)
  ⟨h.1.trans (by decide), h.2.1⟩

/-! ## Failure of the consumer -/

theorem streamResponseFromClaude_calls_of_error (rt : Runtime)
    (fetch : FetchCall → Except String FetchResponse)
    (prompt modelId : String) (messages files : List Json) (extendedThinking : Bool)
    (m : String)
    (h : (streamResponseFromClaude.attempt rt fetch prompt modelId messages files
      extendedThinking).result = .error m) :
    (streamResponseFromClaude rt fetch prompt modelId messages files extendedThinking).calls
      = (streamResponseFromClaude.attempt rt fetch prompt modelId messages files
          extendedThinking).calls ++ [handleStreamingError m] := by
  unfold streamResponseFromClaude
  simp [h]

theorem attempt_calls_of_not_streams (rt : Runtime)
    (fetch : FetchCall → Except String FetchResponse)
    (prompt modelId : String) (messages files : List Json) (extendedThinking : Bool)
    (h : ∀ response body,
      fetch (requestCall prompt modelId messages files extendedThinking) = .ok response →
      ¬ Streams response body) :
    (streamResponseFromClaude.attempt rt fetch prompt modelId messages files
      extendedThinking).calls = [] := by
  unfold streamResponseFromClaude.attempt
  cases hf : fetch (requestCall prompt modelId messages files extendedThinking) with
  | error e => rfl
  | ok response =>
    simp only []
    by_cases hok : response.ok = true
    · simp only [hok, Bool.not_true, Bool.false_eq_true, ↓reduceIte]
      cases hbody : response.body with
      | none => rfl
      | some body =>
        simp only []
        split
        · rfl
        · rename_i hct
          exfalso
          refine h response body hf ⟨hok, hbody, ?_⟩
          cases hc : response.contentType with
          | none => simp [hc] at hct
          | some ct => exact ⟨ct, rfl, by simpa [hc] using hct⟩
    · have hok' : response.ok = false := by simpa using hok
      simp only [hok', Bool.not_false, ↓reduceIte]
      cases response.text <;> rfl

theorem readLoop_read_fails (rt : Runtime) (chunks : List String) (e : String)
    (rest : BodyStream) :
    (readLoop rt (chunks.map .chunk ++ .fails e :: rest) "" []).result = .error e ∧
    (readLoop rt (chunks.map .chunk ++ .fails e :: rest) "" []).calls =
      (readLoop rt (chunks.map .chunk) "" []).calls := by
  have h1 := readLoop_chunks_append rt chunks (.fails e :: rest) "" []
  have h2 := readLoop_chunks_append rt chunks [] "" []
  rw [List.append_nil] at h2
  rw [h1, h2]
  exact ⟨rfl, rfl⟩

/-- C10: whenever `streamResponseFromClaude` fails with an error of message `m`, its
callback invocations are those made before the failure followed by exactly one
diagnostic, the string that embeds `m` and the suggestion to check the API key, and
`m` is the error raised inside, raised again to the caller. When the request itself
raises, or the response fails a check made before the stream is read, the diagnostic
is the only invocation; when a read raises, the invocations before it are those of
the chunks read so far. -/
theorem streamResponseFromClaude_failure (rt : Runtime)
    (fetch : FetchCall → Except String FetchResponse)
    (prompt modelId : String) (messages files : List Json) (extendedThinking : Bool)
    (m : String)
    (h : (streamResponseFromClaude rt fetch prompt modelId messages files
      extendedThinking).result = .error m) :
    (streamResponseFromClaude rt fetch prompt modelId messages files extendedThinking).calls
      = (streamResponseFromClaude.attempt rt fetch prompt modelId messages files
          extendedThinking).calls ++
        [.str ("Error connecting to Claude API: " ++ m ++
          ". Please check your API key and try again.")] ∧
    (streamResponseFromClaude.attempt rt fetch prompt modelId messages files
      extendedThinking).result = .error m ∧
    (∀ e, fetch (requestCall prompt modelId messages files extendedThinking) = .error e →
      e = m ∧
      (streamResponseFromClaude rt fetch prompt modelId messages files extendedThinking).calls
        = [.str ("Error connecting to Claude API: " ++ m ++
            ". Please check your API key and try again.")]) ∧
    ((∀ response body,
        fetch (requestCall prompt modelId messages files extendedThinking) = .ok response →
        ¬ Streams response body) →
      (streamResponseFromClaude rt fetch prompt modelId messages files extendedThinking).calls
        = [.str ("Error connecting to Claude API: " ++ m ++
            ". Please check your API key and try again.")]) ∧
    (∀ (response : FetchResponse) (chunks : List String) (e : String) (rest : BodyStream),
      fetch (requestCall prompt modelId messages files extendedThinking) = .ok response →
      Streams response (chunks.map .chunk ++ .fails e :: rest) →
      e = m ∧
      (streamResponseFromClaude.attempt rt fetch prompt modelId messages files
        extendedThinking).calls = (readLoop rt (chunks.map .chunk) "" []).calls) := by
  rw [streamResponseFromClaude_result] at h
  have hc := streamResponseFromClaude_calls_of_error rt fetch prompt modelId messages files
    extendedThinking m h
  simp only [handleStreamingError] at hc
  refine ⟨hc, h, ?_, ?_, ?_⟩
  · intro e he
    have ha : streamResponseFromClaude.attempt rt fetch prompt modelId messages files
        extendedThinking = { calls := [], result := .error e } := by
      simp [streamResponseFromClaude.attempt, he]
    rw [ha] at h hc
    simp only [Except.error.injEq] at h
    exact ⟨h, by simpa using hc⟩
  · intro hns
    rw [hc, attempt_calls_of_not_streams rt fetch prompt modelId messages files
      extendedThinking hns]
    rfl
  · intro response chunks e rest he hs
    rw [attempt_of_streams rt fetch prompt modelId messages files extendedThinking
      response _ he hs] at h ⊢
    have hr := readLoop_read_fails rt chunks e rest
    rw [hr.1] at h
    simp only [Except.error.injEq] at h
    exact ⟨h, hr.2⟩

/-- C10, witness: the request to the forwarder raises `Failed to fetch`. -/
theorem streamResponseFromClaude_failure_witness :
    (streamResponseFromClaude sampleRuntime (fun _ => .error "Failed to fetch")
        "hi" "claude-3-5-sonnet-20240620" [] [] false).result = .error "Failed to fetch" ∧
    (streamResponseFromClaude sampleRuntime (fun _ => .error "Failed to fetch")
        "hi" "claude-3-5-sonnet-20240620" [] [] false).calls =
      [.str "Error connecting to Claude API: Failed to fetch. Please check your API key and try again."] :=
  ⟨rfl, (streamResponseFromClaude_failure sampleRuntime (fun _ => .error "Failed to fetch")
    "hi" "claude-3-5-sonnet-20240620" [] [] false "Failed to fetch" rfl).1⟩

/-! ## The consumer on a non-success response -/

theorem attempt_of_not_ok (rt : Runtime) (fetch : FetchCall → Except String FetchResponse)
    (prompt modelId : String) (messages files : List Json) (extendedThinking : Bool)
    (response : FetchResponse) (errorText : String)
    (hf : fetch (requestCall prompt modelId messages files extendedThinking) = .ok response)
    (hok : response.ok = false) (ht : response.text = .ok errorText) :
    streamResponseFromClaude.attempt rt fetch prompt modelId messages files extendedThinking
      = { calls := [], result := .error (errorMessageOf rt errorText response.statusText) } := by
  simp [streamResponseFromClaude.attempt, hf, hok, ht]

theorem streamResponseFromClaude_of_not_ok (rt : Runtime)
    (fetch : FetchCall → Except String FetchResponse)
    (prompt modelId : String) (messages files : List Json) (extendedThinking : Bool)
    (response : FetchResponse) (errorText : String)
    (hf : fetch (requestCall prompt modelId messages files extendedThinking) = .ok response)
    (hok : response.ok = false) (ht : response.text = .ok errorText) :
    streamResponseFromClaude rt fetch prompt modelId messages files extendedThinking
      = { calls := [handleStreamingError (errorMessageOf rt errorText response.statusText)]
          result := .error (errorMessageOf rt errorText response.statusText) } := by
  simp [streamResponseFromClaude, attempt_of_not_ok rt fetch prompt modelId messages files
    extendedThinking response errorText hf hok ht]

/-- C11, as amended: when the forwarder answers with a non-success status and the
body text is read, the consumer fails with the message `Claude API error: ` followed
by: the `error.message` of the body when the body parses as JSON and carries a truthy
one; the status text when the body parses as JSON (other than `null`) and carries
none; and, when the body does not parse as JSON (or is `null`), the raw body text
when that is non-empty and the status text otherwise. -/
theorem streamResponseFromClaude_error_status (rt : Runtime)
    (fetch : FetchCall → Except String FetchResponse)
    (prompt modelId : String) (messages files : List Json) (extendedThinking : Bool)
    (response : FetchResponse) (errorText : String)
    (hf : fetch (requestCall prompt modelId messages files extendedThinking) = .ok response)
    (hok : response.ok = false) (ht : response.text = .ok errorText) :
    ∃ detail : String,
      (streamResponseFromClaude rt fetch prompt modelId messages files
        extendedThinking).result = .error ("Claude API error: " ++ detail) ∧
      (∀ errorData message, rt.parse errorText = some errorData →
        getPropOpt (getPropOpt (some errorData) "error") "message" = some message →
        truthy (some message) = true → detail = toStr rt message) ∧
      (∀ errorData, rt.parse errorText = some errorData → errorData ≠ .null →
        truthy (getPropOpt (getPropOpt (some errorData) "error") "message") = false →
        detail = response.statusText) ∧
      ((rt.parse errorText = none ∨ rt.parse errorText = some .null) →
        detail = if errorText ≠ "" then errorText else response.statusText) := by
  rw [streamResponseFromClaude_of_not_ok rt fetch prompt modelId messages files
    extendedThinking response errorText hf hok ht]
  simp only [errorMessageOf]
  cases hp : rt.parse errorText with
  | none =>
    exact ⟨_, rfl, fun _ _ h => by simp at h, fun _ h => by simp at h, fun _ => rfl⟩
  | some errorData =>
    by_cases hn : errorData = .null
    · subst hn
      refine ⟨_, rfl, ?_, ?_, fun _ => rfl⟩
      · intro d m hd hm
        simp only [Option.some.injEq] at hd
        subst hd
        simp [getPropOpt] at hm
      · intro d hd hne
        simp only [Option.some.injEq] at hd
        exact absurd hd.symm hne
    · simp only [getProp_of_ne_null rt errorData "error" hn]
      cases hm : getPropOpt (getPropOpt (some errorData) "error") "message" with
      | none =>
        refine ⟨_, rfl, ?_, fun _ _ _ _ => rfl, ?_⟩
        · intro d m hd hm2
          simp only [Option.some.injEq] at hd
          subst hd
          rw [hm] at hm2
          simp at hm2
        · rintro (h | h)
          · simp at h
          · simp only [Option.some.injEq] at h
            exact absurd h hn
      | some v =>
        by_cases hv : truthy (some v) = true
        · simp only [hv, ↓reduceIte]
          refine ⟨_, rfl, ?_, ?_, ?_⟩
          · intro d m hd hm2 _
            simp only [Option.some.injEq] at hd
            subst hd
            rw [hm] at hm2
            simp only [Option.some.injEq] at hm2
            rw [hm2]
          · intro d hd _ hf2
            simp only [Option.some.injEq] at hd
            subst hd
            rw [hm, hv] at hf2
            exact absurd hf2 (by decide)
          · rintro (h | h)
            · simp at h
            · simp only [Option.some.injEq] at h
              exact absurd h hn
        · simp only [hv, Bool.false_eq_true, ↓reduceIte]
          refine ⟨_, rfl, ?_, fun _ _ _ _ => rfl, ?_⟩
          · intro d m hd hm2 ht2
            simp only [Option.some.injEq] at hd
            subst hd
            rw [hm] at hm2
            simp only [Option.some.injEq] at hm2
            rw [hm2] at hv
            exact absurd ht2 hv
          · rintro (h | h)
            · simp at h
            · simp only [Option.some.injEq] at h
              exact absurd h hn

/-- C11, witness: a 529 reply whose body is the envelope of the message `Overloaded`. -/
theorem streamResponseFromClaude_error_status_witness :
    (streamResponseFromClaude sampleRuntime
        (fun _ => .ok { ok := false, status := 529, statusText := ""
                        contentType := some "application/json"
                        text := .ok "\x7b\"error\":\x7b\"message\":\"Overloaded\"\x7d\x7d"
                        body := none })
        "hi" "claude-3-5-sonnet-20240620" [] [] false).result
      = .error "Claude API error: Overloaded" := by
  obtain ⟨detail, hres, h1, -, -⟩ := streamResponseFromClaude_error_status sampleRuntime
    (fun _ => .ok { ok := false, status := 529, statusText := ""
                    contentType := some "application/json"
                    text := .ok "\x7b\"error\":\x7b\"message\":\"Overloaded\"\x7d\x7d"
                    body := none })
    "hi" "claude-3-5-sonnet-20240620" [] [] false _
    "\x7b\"error\":\x7b\"message\":\"Overloaded\"\x7d\x7d" rfl rfl rfl
  rw [h1 (.obj [("error", .obj [("message", .str "Overloaded")])]) (.str "Overloaded")
    (by decide) (by decide) (by decide)] at hres
  exact hres

/-- C11, counterexample: the body `{"error":"Invalid request. Model and messages are
required."}` parses as JSON, carries no `error.message` and is not empty; the
message of the error raised holds the status text, not the raw body text. -/
theorem streamResponseFromClaude_body_without_message :
    sampleRuntime.parse
        "\x7b\"error\":\"Invalid request. Model and messages are required.\"\x7d"
      = some (.obj [("error", .str "Invalid request. Model and messages are required.")]) ∧
    getPropOpt (getPropOpt (some (Json.obj
        [("error", .str "Invalid request. Model and messages are required.")])) "error")
        "message" = none ∧
    (streamResponseFromClaude sampleRuntime
        (fun _ => .ok { ok := false, status := 400, statusText := "Bad Request"
                        contentType := some "application/json"
                        text := .ok "\x7b\"error\":\"Invalid request. Model and messages are required.\"\x7d"
                        body := none })
        "hi" "" [] [] false).result = .error "Claude API error: Bad Request" ∧
    "Claude API error: Bad Request" ≠
      "Claude API error: \x7b\"error\":\"Invalid request. Model and messages are required.\"\x7d" ∧
    "Claude API error: Bad Request" ≠
      "\x7b\"error\":\"Invalid request. Model and messages are required.\"\x7d" :=
  ⟨by decide, by decide, rfl, by decide, by decide⟩

/-! ## The forwarder and the consumer together -/

/-- C12, the code on every error reply of the forwarder: when the forwarder answers
with status 400 or 500 and the body `{error: msg}`, `msg` a string, the consumer
finds no `error.message` in it (`error` is the string itself), and the error it
raises holds the status text in place of `msg`. -/
theorem streamResponseFromClaude_drops_forwarder_message (rt : Runtime)
    (fetch : FetchCall → Except String FetchResponse)
    (prompt modelId : String) (messages files : List Json) (extendedThinking : Bool)
    (msg : String) (status : Nat) (response : FetchResponse)
    (hf : fetch (requestCall prompt modelId messages files extendedThinking) = .ok response)
    (hd : Delivers rt (jsonReply (.obj [("error", .str msg)]) status) response)
    (hs : status = 400 ∨ status = 500) :
    (streamResponseFromClaude rt fetch prompt modelId messages files extendedThinking).result
      = .error ("Claude API error: " ++ response.statusText) ∧
    (streamResponseFromClaude rt fetch prompt modelId messages files extendedThinking).calls
      = [handleStreamingError ("Claude API error: " ++ response.statusText)] := by
  obtain ⟨-, hok, -, text, ht, hp⟩ := hd
  have hok' : response.ok = false := by
    rw [hok]
    rcases hs with rfl | rfl <;> simp [jsonReply]
  rw [streamResponseFromClaude_of_not_ok rt fetch prompt modelId messages files
    extendedThinking response text hf hok' ht]
  have he : errorMessageOf rt text response.statusText
      = "Claude API error: " ++ response.statusText := by
    simp [errorMessageOf, hp, getProp, getPropOpt, Json.member]
  rw [he]
  exact ⟨rfl, rfl⟩

/-- C12, witness: the server has no credential. The forwarder answers the consumer's
request with status 500 and `{error: 'API key not configured. ...'}`; the consumer
raises `Claude API error: Internal Server Error`. -/
theorem streamResponseFromClaude_drops_forwarder_message_witness :
    (POST sampleRuntime none (fun _ => .error "unreachable")
        (.ok (requestPayload "hi" "claude-3-5-sonnet-20240620" [] [] false))).reply
      = jsonReply (.obj [("error", .str
          "API key not configured. Please add CLAUDE_API_KEY to your .env.local file.")]) 500 ∧
    (streamResponseFromClaude sampleRuntime
        (fun _ => .ok { ok := false, status := 500, statusText := "Internal Server Error"
                        contentType := some "application/json"
                        text := .ok "\x7b\"error\":\"API key not configured. Please add CLAUDE_API_KEY to your .env.local file.\"\x7d"
                        body := none })
        "hi" "claude-3-5-sonnet-20240620" [] [] false).result
      = .error "Claude API error: Internal Server Error" :=
  ⟨by decide,
    (streamResponseFromClaude_drops_forwarder_message sampleRuntime
      (fun _ => .ok { ok := false, status := 500, statusText := "Internal Server Error"
                      contentType := some "application/json"
                      text := .ok "\x7b\"error\":\"API key not configured. Please add CLAUDE_API_KEY to your .env.local file.\"\x7d"
                      body := none })
      "hi" "claude-3-5-sonnet-20240620" [] [] false
      "API key not configured. Please add CLAUDE_API_KEY to your .env.local file." 500 _ rfl
      ⟨rfl, rfl, by decide, _, rfl, by decide⟩ (Or.inr rfl)).1⟩

theorem POST_of_fetch_ok (rt : Runtime) (key : String)
    (fetch : FetchCall → Except String UpstreamResponse) (data : Json)
    (response : UpstreamResponse)
    (hv : passesValidation data) (hk : key ≠ "")
    (hf : fetch (upstreamCall key (payloadOf data)) = .ok response) :
    POST rt (some key) fetch (.ok data) =
      { reply := match POST.relay rt (getPropOpt (some data) "stream") response with
          | .ok reply => reply
          | .error m => caughtReply m
        upstreamCalls := [upstreamCall key (payloadOf data)] } := by
  have hurl : API_BASE_URL ++ "/messages" = "https://api.anthropic.com/v1/messages" := by
    decide
  simp only [upstreamCall, payloadOf] at hf
  simp only [POST, POST_attempt_valid rt _ fetch data hv, POST.forward, hk, ↓reduceIte,
    hurl, hf]
  cases POST.relay rt (getPropOpt (some data) "stream") response <;>
    simp [caughtReply, jsonReply, upstreamCall, payloadOf]

theorem POST_of_fetch_error (rt : Runtime) (key : String)
    (fetch : FetchCall → Except String UpstreamResponse) (data : Json) (m : String)
    (hv : passesValidation data) (hk : key ≠ "")
    (hf : fetch (upstreamCall key (payloadOf data)) = .error m) :
    POST rt (some key) fetch (.ok data) =
      { reply := caughtReply m, upstreamCalls := [upstreamCall key (payloadOf data)] } := by
  have hurl : API_BASE_URL ++ "/messages" = "https://api.anthropic.com/v1/messages" := by
    decide
  simp only [upstreamCall, payloadOf] at hf
  simp only [POST, POST_attempt_valid rt _ fetch data hv, POST.forward, hk, ↓reduceIte,
    hurl, hf]
  simp [caughtReply, jsonReply, upstreamCall, payloadOf]

theorem requestPayload_props (prompt modelId : String) (messages files : List Json)
    (extendedThinking : Bool) :
    getPropOpt (some (requestPayload prompt modelId messages files extendedThinking)) "model"
      = some (.str modelId) ∧
    getPropOpt (some (requestPayload prompt modelId messages files extendedThinking))
      "messages" = some (.arr (messages ++
        [.obj [("role", .str "user"), ("content", .str prompt)]])) ∧
    getPropOpt (some (requestPayload prompt modelId messages files extendedThinking)) "stream"
      = some (.bool true) := by
  cases files <;> simp [requestPayload, getPropOpt, Json.member]

theorem requestPayload_valid (prompt modelId : String) (messages files : List Json)
    (extendedThinking : Bool) (hm : modelId ≠ "") :
    passesValidation (requestPayload prompt modelId messages files extendedThinking) := by
  obtain ⟨h1, h2, -⟩ := requestPayload_props prompt modelId messages files extendedThinking
  simp [passesValidation, h1, h2, truthy, isArray, hm]

theorem readLoop_chunks_result (rt : Runtime) (chunks : List String) (buffer : String)
    (calls : List Json) :
    (readLoop rt (chunks.map .chunk) buffer calls).result = .ok none := by
  have h := readLoop_chunks_append rt chunks [] buffer calls
  rw [List.append_nil] at h
  rw [h]
  rfl

/-- C13, the code on every upstream answer to a streaming request: whatever the
status of the upstream response (a non-success status with an error envelope
included), the forwarder replies with status 200 and the headers of an event stream,
and the consumer, given that reply, reads the body as a stream, raises nothing and
resolves; when no complete line of the body begins with `data: ` the callback is
never invoked. -/
theorem streamResponseFromClaude_upstream_failure_completes (rt : Runtime) (key : String)
    (upstream : FetchCall → Except String UpstreamResponse)
    (fetch : FetchCall → Except String FetchResponse)
    (prompt modelId : String) (messages files : List Json) (extendedThinking : Bool)
    (up : UpstreamResponse) (chunks : List String) (response : FetchResponse)
    (hk : key ≠ "") (hm : modelId ≠ "")
    (hup : upstream (upstreamCall key
      (payloadOf (requestPayload prompt modelId messages files extendedThinking))) = .ok up)
    (hbody : up.body = some (chunks.map .chunk))
    (hd : Delivers rt (POST rt (some key) upstream
      (.ok (requestPayload prompt modelId messages files extendedThinking))).reply response)
    (hf : fetch (requestCall prompt modelId messages files extendedThinking) = .ok response) :
    (POST rt (some key) upstream
      (.ok (requestPayload prompt modelId messages files extendedThinking))).reply.status
      = 200 ∧
    (streamResponseFromClaude rt fetch prompt modelId messages files extendedThinking).result
      = .ok none ∧
    ((∀ l ∈ completeLines (joinChunks chunks), startsWith l "data: " = false) →
      (streamResponseFromClaude rt fetch prompt modelId messages files
        extendedThinking).calls = []) := by
  have hv := requestPayload_valid prompt modelId messages files extendedThinking hm
  have hst := (requestPayload_props prompt modelId messages files extendedThinking).2.2
  have hpost := POST_of_fetch_ok rt key upstream _ up hv hk hup
  have hreply : (POST rt (some key) upstream
      (.ok (requestPayload prompt modelId messages files extendedThinking))).reply =
      { status := 200
        headers := [("Content-Type", "text/event-stream"), ("Cache-Control", "no-cache"),
                    ("Connection", "keep-alive")]
        body := .stream (some (chunks.map .chunk)) } := by
    rw [hpost]
    simp [POST.relay, hst, truthy, hbody]
  rw [hreply] at hd ⊢
  obtain ⟨-, hok, hct, hb⟩ := hd
  simp only [] at hok hct
  have hs : Streams response (chunks.map .chunk) := by
    refine ⟨by rw [hok]; simp, hb, "text/event-stream", ?_, by decide⟩
    rw [hct]
    decide
  have hatt := attempt_of_streams rt fetch prompt modelId messages files extendedThinking
    response _ hf hs
  have hres : (streamResponseFromClaude rt fetch prompt modelId messages files
      extendedThinking).result = .ok none := by
    rw [streamResponseFromClaude_result, hatt]
    exact readLoop_chunks_result rt chunks "" []
  refine ⟨rfl, hres, ?_⟩
  intro hno
  have hquiet : (completeLines (joinChunks chunks)).Pairwise
      (fun d l => isDone d = true → lineCalls rt l = []) := by
    apply pairwise_of_not_done
    intro l hl
    simp [isDone, hno l hl]
  rw [streamResponseFromClaude_of_chunks rt fetch prompt modelId messages files
    extendedThinking response chunks hf hs hquiet]
  simp only [List.flatMap_eq_nil_iff]
  intro l hl
  simp [lineCalls, hno l hl]

/-- C13, witness: the upstream rejects the credential with status 401 and an error
envelope; the forwarder replies 200, and the consumer resolves without any callback
invocation and without raising. -/
theorem streamResponseFromClaude_upstream_failure_completes_witness :
    (POST sampleRuntime (some "sk-wrong")
        (fun _ => .ok { ok := false, status := 401, statusText := "Unauthorized"
                        body := some [.chunk "\x7b\"type\":\"error\",\"error\":\x7b\"type\":\"authentication_error\",\"message\":\"invalid x-api-key\"\x7d\x7d"]
                        json := .ok (.obj [("type", .str "error"), ("error", .obj
                          [("type", .str "authentication_error"),
                           ("message", .str "invalid x-api-key")])]) })
        (.ok (requestPayload "hi" "claude-3-5-sonnet-20240620" [] [] false))).reply.status
      = 200 ∧
    (streamResponseFromClaude sampleRuntime
        (fun _ => .ok { ok := true, status := 200, statusText := "OK"
                        contentType := some "text/event-stream"
                        text := .ok "\x7b\"type\":\"error\",\"error\":\x7b\"type\":\"authentication_error\",\"message\":\"invalid x-api-key\"\x7d\x7d"
                        body := some [.chunk "\x7b\"type\":\"error\",\"error\":\x7b\"type\":\"authentication_error\",\"message\":\"invalid x-api-key\"\x7d\x7d"] })
        "hi" "claude-3-5-sonnet-20240620" [] [] false).result = .ok none ∧
    (streamResponseFromClaude sampleRuntime
        (fun _ => .ok { ok := true, status := 200, statusText := "OK"
                        contentType := some "text/event-stream"
                        text := .ok "\x7b\"type\":\"error\",\"error\":\x7b\"type\":\"authentication_error\",\"message\":\"invalid x-api-key\"\x7d\x7d"
                        body := some [.chunk "\x7b\"type\":\"error\",\"error\":\x7b\"type\":\"authentication_error\",\"message\":\"invalid x-api-key\"\x7d\x7d"] })
        "hi" "claude-3-5-sonnet-20240620" [] [] false).calls = [] :=
  have h := streamResponseFromClaude_upstream_failure_completes sampleRuntime "sk-wrong"
    (fun _ => .ok { ok := false, status := 401, statusText := "Unauthorized"
                    body := some [.chunk "\x7b\"type\":\"error\",\"error\":\x7b\"type\":\"authentication_error\",\"message\":\"invalid x-api-key\"\x7d\x7d"]
                    json := .ok (.obj [("type", .str "error"), ("error", .obj
                      [("type", .str "authentication_error"),
                       ("message", .str "invalid x-api-key")])]) })
    (fun _ => .ok { ok := true, status := 200, statusText := "OK"
                    contentType := some "text/event-stream"
                    text := .ok "\x7b\"type\":\"error\",\"error\":\x7b\"type\":\"authentication_error\",\"message\":\"invalid x-api-key\"\x7d\x7d"
                    body := some [.chunk "\x7b\"type\":\"error\",\"error\":\x7b\"type\":\"authentication_error\",\"message\":\"invalid x-api-key\"\x7d\x7d"] })
    "hi" "claude-3-5-sonnet-20240620" [] [] false _
    ["\x7b\"type\":\"error\",\"error\":\x7b\"type\":\"authentication_error\",\"message\":\"invalid x-api-key\"\x7d\x7d"]
    { ok := true, status := 200, statusText := "OK"
      contentType := some "text/event-stream"
      text := .ok "\x7b\"type\":\"error\",\"error\":\x7b\"type\":\"authentication_error\",\"message\":\"invalid x-api-key\"\x7d\x7d"
      body := some [.chunk "\x7b\"type\":\"error\",\"error\":\x7b\"type\":\"authentication_error\",\"message\":\"invalid x-api-key\"\x7d\x7d"] }
    (by decide) (by decide) rfl rfl
    ⟨rfl, rfl, by decide, (rfl : some [Read.chunk "\x7b\"type\":\"error\",\"error\":\x7b\"type\":\"authentication_error\",\"message\":\"invalid x-api-key\"\x7d\x7d"] = some _)⟩ rfl
  ⟨h.1, h.2.1, h.2.2 (by decide)⟩

/-! ## The non-streaming branch of the forwarder -/

/-- C14, as amended: in the non-streaming branch, for every non-success upstream
response whose body parses as JSON to a value other than `null`, the forwarder
replies with the upstream's status code and an `{error}` whose value is the upstream
envelope's `error.message` when it carries a truthy one, and the upstream's status
text otherwise. -/
theorem POST_upstream_error (rt : Runtime) (key : String)
    (fetch : FetchCall → Except String UpstreamResponse) (data : Json)
    (response : UpstreamResponse) (errorData : Json)
    (hv : passesValidation data) (hk : key ≠ "")
    (hs : truthy (getPropOpt (some data) "stream") = false)
    (hf : fetch (upstreamCall key (payloadOf data)) = .ok response)
    (hok : response.ok = false) (hj : response.json = .ok errorData)
    (hn : errorData ≠ .null) :
    ∃ shown : Json,
      (POST rt (some key) fetch (.ok data)).reply =
        { status := response.status
          headers := [("content-type", "application/json")]
          body := .json (.obj [("error", shown)]) } ∧
      (truthy (getPropOpt (getPropOpt (some errorData) "error") "message") = true →
        getPropOpt (getPropOpt (some errorData) "error") "message" = some shown) ∧
      (truthy (getPropOpt (getPropOpt (some errorData) "error") "message") = false →
        shown = .str response.statusText) := by
  rw [POST_of_fetch_ok rt key fetch data response hv hk hf]
  simp only [POST.relay, hs, Bool.false_eq_true, ↓reduceIte, hok, Bool.not_false, hj,
    getProp_of_ne_null rt errorData "error" hn, jsonReply]
  cases hm : getPropOpt (getPropOpt (some errorData) "error") "message" with
  | none => exact ⟨_, rfl, by simp [truthy], fun _ => rfl⟩
  | some v =>
    by_cases ht : truthy (some v) = true
    · simp only [ht, ↓reduceIte]
      exact ⟨_, rfl, fun _ => rfl, by simp⟩
    · simp only [ht, Bool.false_eq_true, ↓reduceIte]
      exact ⟨_, rfl, fun h => h.elim, fun _ => rfl⟩

/-- C14, witness: the upstream answers 429 with the envelope of `Rate limited`. -/
theorem POST_upstream_error_witness :
    (POST sampleRuntime (some "sk-test")
        (fun _ => .ok { ok := false, status := 429, statusText := "Too Many Requests"
                        body := none
                        json := .ok (.obj [("type", .str "error"), ("error", .obj
                          [("type", .str "rate_limit_error"),
                           ("message", .str "Rate limited")])]) })
        (.ok (.obj [("model", .str "claude"), ("messages", .arr [])]))).reply =
      { status := 429
        headers := [("content-type", "application/json")]
        body := .json (.obj [("error", .str "Rate limited")]) } := by
  obtain ⟨shown, hr, h1, -⟩ := POST_upstream_error sampleRuntime "sk-test"
    (fun _ => .ok { ok := false, status := 429, statusText := "Too Many Requests"
                    body := none
                    json := .ok (.obj [("type", .str "error"), ("error", .obj
                      [("type", .str "rate_limit_error"),
                       ("message", .str "Rate limited")])]) })
    (.obj [("model", .str "claude"), ("messages", .arr [])]) _
    (.obj [("type", .str "error"), ("error", .obj
      [("type", .str "rate_limit_error"), ("message", .str "Rate limited")])])
    (by decide) (by decide) (by decide) rfl rfl rfl (by decide)
  have h2 := h1 (by decide)
  have h3 : shown = .str "Rate limited" := by
    have h4 : getPropOpt (getPropOpt (some (Json.obj [("type", .str "error"), ("error", .obj
        [("type", .str "rate_limit_error"), ("message", .str "Rate limited")])])) "error")
        "message" = some (.str "Rate limited") := by decide
    rw [h4] at h2
    exact (Option.some.inj h2).symm
  rw [hr, h3]

/-- C14, counterexample: the upstream answers 502 with a body that is not JSON;
`response.json()` raises, and the reply is the one of the `catch` block, status 500
with the message of that exception, not status 502 with the status text. -/
theorem POST_upstream_error_unparseable :
    (POST sampleRuntime (some "sk-test")
        (fun _ => .ok { ok := false, status := 502, statusText := "Bad Gateway"
                        body := none
                        json := .error "Unexpected token '<', \"<html>\" is not valid JSON" })
        (.ok (.obj [("model", .str "claude"), ("messages", .arr [])]))).reply =
      { status := 500
        headers := [("content-type", "application/json")]
        body := .json (.obj [("error",
          .str "Unexpected token '<', \"<html>\" is not valid JSON")]) } ∧
    (POST sampleRuntime (some "sk-test")
        (fun _ => .ok { ok := false, status := 502, statusText := "Bad Gateway"
                        body := none
                        json := .error "Unexpected token '<', \"<html>\" is not valid JSON" })
        (.ok (.obj [("model", .str "claude"), ("messages", .arr [])]))).reply ≠
      { status := 502
        headers := [("content-type", "application/json")]
        body := .json (.obj [("error", .str "Bad Gateway")]) } := by
  decide

/-- C15: for every successful non-streaming upstream response whose body parses, the
JSON body the forwarder returns is the parsed upstream body itself. -/
theorem POST_success_body (rt : Runtime) (key : String)
    (fetch : FetchCall → Except String UpstreamResponse) (data : Json)
    (response : UpstreamResponse) (result : Json)
    (hv : passesValidation data) (hk : key ≠ "")
    (hs : truthy (getPropOpt (some data) "stream") = false)
    (hf : fetch (upstreamCall key (payloadOf data)) = .ok response)
    (hok : response.ok = true) (hj : response.json = .ok result) :
    (POST rt (some key) fetch (.ok data)).reply.body = .json result := by
  rw [POST_of_fetch_ok rt key fetch data response hv hk hf]
  simp [POST.relay, hs, hok, hj, jsonReply]

/-- C15, witness: a message with one text block. -/
theorem POST_success_body_witness :
    (POST sampleRuntime (some "sk-test")
        (fun _ => .ok { ok := true, status := 200, statusText := "OK", body := none
                        json := .ok (.obj [("id", .str "msg_1"), ("content", .arr
                          [.obj [("type", .str "text"), ("text", .str "Hello")]])]) })
        (.ok (.obj [("model", .str "claude"), ("messages", .arr [])]))).reply.body =
      .json (.obj [("id", .str "msg_1"), ("content", .arr
        [.obj [("type", .str "text"), ("text", .str "Hello")]])]) :=
  POST_success_body sampleRuntime "sk-test" _
    (.obj [("model", .str "claude"), ("messages", .arr [])])
    { ok := true, status := 200, statusText := "OK", body := none
      json := .ok (.obj [("id", .str "msg_1"), ("content", .arr
        [.obj [("type", .str "text"), ("text", .str "Hello")]])]) }
    _ (by decide) (by decide) (by decide) rfl rfl rfl

/-- C16, the code on every successful non-streaming upstream response: the status of
the reply is 200, whatever the status of the upstream response. -/
theorem POST_success_status (rt : Runtime) (key : String)
    (fetch : FetchCall → Except String UpstreamResponse) (data : Json)
    (response : UpstreamResponse) (result : Json)
    (hv : passesValidation data) (hk : key ≠ "")
    (hs : truthy (getPropOpt (some data) "stream") = false)
    (hf : fetch (upstreamCall key (payloadOf data)) = .ok response)
    (hok : response.ok = true) (hj : response.json = .ok result) :
    (POST rt (some key) fetch (.ok data)).reply.status = 200 := by
  rw [POST_of_fetch_ok rt key fetch data response hv hk hf]
  simp [POST.relay, hs, hok, hj, jsonReply]

/-- C16, witness: the upstream answers with the success status 201; the reply has
status 200. -/
theorem POST_success_status_witness :
    (POST sampleRuntime (some "sk-test")
        (fun _ => .ok { ok := true, status := 201, statusText := "Created", body := none
                        json := .ok (.obj [("id", .str "msg_1")]) })
        (.ok (.obj [("model", .str "claude"), ("messages", .arr [])]))).reply.status = 200 ∧
    (200 : Nat) ≠ 201 :=
  ⟨POST_success_status sampleRuntime "sk-test" _
    (.obj [("model", .str "claude"), ("messages", .arr [])])
    { ok := true, status := 201, statusText := "Created", body := none
      json := .ok (.obj [("id", .str "msg_1")]) }
    _ (by decide) (by decide) (by decide) rfl rfl rfl, by decide⟩

/-! ## Exceptions in the forwarder, and the credential -/

/-- C17: any exception raised inside the `try` block of the forwarder, of message
`m`, is answered with status 500 and `{error: m}`, or `{error: 'Internal server
error'}` when `m` is empty; the handler returns a reply in every case. The
exception is the one of `request.json()` when the request does not parse, the one of
`fetch` when the upstream call raises, and the one of `response.json()` when the
upstream body does not parse in the non-streaming branch. -/
theorem POST_exception (rt : Runtime) (apiKey : Option String)
    (fetch : FetchCall → Except String UpstreamResponse)
    (request : Except String Json) (m : String)
    (h : (POST.attempt rt apiKey fetch request).1 = .error m) :
    (POST rt apiKey fetch request).reply =
      { status := 500
        headers := [("content-type", "application/json")]
        body := .json (.obj [("error",
          .str (if m ≠ "" then m else "Internal server error"))]) } ∧
    (∀ e, request = .error e → e = m) ∧
    (∀ data key e, request = .ok data → passesValidation data → apiKey = some key →
      key ≠ "" → fetch (upstreamCall key (payloadOf data)) = .error e → e = m) ∧
    (∀ data key response e, request = .ok data → passesValidation data →
      apiKey = some key → key ≠ "" →
      fetch (upstreamCall key (payloadOf data)) = .ok response →
      truthy (getPropOpt (some data) "stream") = false →
      response.json = .error e → e = m) := by
  have hurl : API_BASE_URL ++ "/messages" = "https://api.anthropic.com/v1/messages" := by
    decide
  refine ⟨?_, ?_, ?_, ?_⟩
  · unfold POST
    cases hr : POST.attempt rt apiKey fetch request with
    | mk r calls =>
      rw [hr] at h
      simp only at h
      subst h
      simp [jsonReply]
  · rintro e rfl
    simpa [POST.attempt] using h
  · rintro data key e rfl hv rfl hk hf
    simp only [upstreamCall, payloadOf] at hf
    rw [POST_attempt_valid rt _ fetch data hv] at h
    simpa [POST.forward, hk, hurl, hf] using h
  · rintro data key response e rfl hv rfl hk hf hs hj
    simp only [upstreamCall, payloadOf] at hf
    rw [POST_attempt_valid rt _ fetch data hv] at h
    cases hok : response.ok <;>
      simpa [POST.forward, hk, hurl, hf, POST.relay, hs, hj, hok] using h

/-- C17, witness: the request body is not JSON. -/
theorem POST_exception_witness :
    (POST sampleRuntime (some "sk-test") (fun _ => .error "unreachable")
        (.error "Unexpected end of JSON input")).reply =
      { status := 500
        headers := [("content-type", "application/json")]
        body := .json (.obj [("error", .str "Unexpected end of JSON input")]) } :=
  (POST_exception sampleRuntime (some "sk-test") (fun _ => .error "unreachable")
    (.error "Unexpected end of JSON input") "Unexpected end of JSON input" rfl).1

/-- C18: the reply of the forwarder does not depend on the value of the credential.
For every request and every two non-empty credentials, when the upstream outcome
(response or raised exception) of the call made is the same in both runs, the
replies (status, headers and body) are equal; and the upstream calls of the two runs
are built from the same payloads, the credential being the value of their
`x-api-key` header and appearing nowhere else in them. -/
theorem POST_credential_independent (rt : Runtime) (key key2 : String)
    (fetch fetch2 : FetchCall → Except String UpstreamResponse)
    (request : Except String Json)
    (hk : key ≠ "") (hk2 : key2 ≠ "")
    (hsame : ∀ call ∈ (POST rt (some key) fetch request).upstreamCalls,
      ∀ call2 ∈ (POST rt (some key2) fetch2 request).upstreamCalls,
        fetch call = fetch2 call2) :
    (POST rt (some key) fetch request).reply = (POST rt (some key2) fetch2 request).reply ∧
    ∃ payloads : List (List (String × Json)),
      (POST rt (some key) fetch request).upstreamCalls =
        payloads.map (fun payload =>
          { url := "https://api.anthropic.com/v1/messages"
            method := "POST"
            headers := [("Content-Type", "application/json"), ("x-api-key", key),
                        ("anthropic-version", "2023-06-01")]
            body := .obj payload }) ∧
      (POST rt (some key2) fetch2 request).upstreamCalls =
        payloads.map (fun payload =>
          { url := "https://api.anthropic.com/v1/messages"
            method := "POST"
            headers := [("Content-Type", "application/json"), ("x-api-key", key2),
                        ("anthropic-version", "2023-06-01")]
            body := .obj payload }) := by
  cases request with
  | error e => exact ⟨rfl, [], rfl, rfl⟩
  | ok data =>
    by_cases hv : passesValidation data
    · have hc := POST_valid_calls rt key fetch data hv hk
      have hc2 := POST_valid_calls rt key2 fetch2 data hv hk2
      rw [hc, hc2] at hsame
      have hs := hsame _ (List.mem_singleton.2 rfl) _ (List.mem_singleton.2 rfl)
      refine ⟨?_, [payloadOf data], ?_, ?_⟩
      · cases hf : fetch (upstreamCall key (payloadOf data)) with
        | error e =>
          have hf2 : fetch2 (upstreamCall key2 (payloadOf data)) = .error e := by
            rw [← hf]; exact hs.symm
          rw [POST_of_fetch_error rt key fetch data e hv hk hf,
            POST_of_fetch_error rt key2 fetch2 data e hv hk2 hf2]
        | ok response =>
          have hf2 : fetch2 (upstreamCall key2 (payloadOf data)) = .ok response := by
            rw [← hf]; exact hs.symm
          rw [POST_of_fetch_ok rt key fetch data response hv hk hf,
            POST_of_fetch_ok rt key2 fetch2 data response hv hk2 hf2]
      · rw [hc]; rfl
      · rw [hc2]; rfl
    · have hinv : ∀ (k : String) (f : FetchCall → Except String UpstreamResponse),
          POST rt (some k) f (.ok data) = POST rt none (fun _ => .error "") (.ok data) := by
        intro k f
        by_cases hn : data = .null
        · subst hn
          simp [POST, POST.attempt, getProp]
        · have hv2 : truthy (getPropOpt (some data) "model") = false ∨
              isArray (getPropOpt (some data) "messages") = false := by
            by_cases h1 : truthy (getPropOpt (some data) "model") = true
            · right
              by_cases h2 : isArray (getPropOpt (some data) "messages") = true
              · exact absurd ⟨h1, h2⟩ hv
              · simpa using h2
            · left
              simpa using h1
          simp only [POST, POST.attempt, getProp_of_ne_null rt data _ hn]
          rcases hv2 with h | h <;> simp [h]
      refine ⟨by rw [hinv key fetch, hinv key2 fetch2], [], ?_, ?_⟩
      · rw [hinv key fetch]
        by_cases hn : data = .null
        · subst hn; simp [POST, POST.attempt, getProp]
        · have hv2 : ¬ (truthy (getPropOpt (some data) "model") = true ∧
              isArray (getPropOpt (some data) "messages") = true) := hv
          simp only [POST, POST.attempt, getProp_of_ne_null rt data _ hn]
          by_cases h1 : truthy (getPropOpt (some data) "model") = true
          · have h2 : isArray (getPropOpt (some data) "messages") = false := by
              by_cases h2 : isArray (getPropOpt (some data) "messages") = true
              · exact absurd ⟨h1, h2⟩ hv2
              · simpa using h2
            simp [h2]
          · have h1' : truthy (getPropOpt (some data) "model") = false := by simpa using h1
            simp [h1']
      · rw [hinv key2 fetch2]
        by_cases hn : data = .null
        · subst hn; simp [POST, POST.attempt, getProp]
        · have hv2 : ¬ (truthy (getPropOpt (some data) "model") = true ∧
              isArray (getPropOpt (some data) "messages") = true) := hv
          simp only [POST, POST.attempt, getProp_of_ne_null rt data _ hn]
          by_cases h1 : truthy (getPropOpt (some data) "model") = true
          · have h2 : isArray (getPropOpt (some data) "messages") = false := by
              by_cases h2 : isArray (getPropOpt (some data) "messages") = true
              · exact absurd ⟨h1, h2⟩ hv2
              · simpa using h2
            simp [h2]
          · have h1' : truthy (getPropOpt (some data) "model") = false := by simpa using h1
            simp [h1']

/-- C18, witness: two credentials, the same upstream answer. -/
theorem POST_credential_independent_witness :
    (POST sampleRuntime (some "sk-one")
        (fun _ => .ok { ok := false, status := 401, statusText := "Unauthorized"
                        body := none
                        json := .ok (.obj [("error", .obj
                          [("message", .str "invalid x-api-key")])]) })
        (.ok (.obj [("model", .str "claude"), ("messages", .arr [])]))).reply =
    (POST sampleRuntime (some "sk-two")
        (fun _ => .ok { ok := false, status := 401, statusText := "Unauthorized"
                        body := none
                        json := .ok (.obj [("error", .obj
                          [("message", .str "invalid x-api-key")])]) })
        (.ok (.obj [("model", .str "claude"), ("messages", .arr [])]))).reply :=
  (POST_credential_independent sampleRuntime "sk-one" "sk-two"
    (fun _ => .ok { ok := false, status := 401, statusText := "Unauthorized"
                    body := none
                    json := .ok (.obj [("error", .obj
                      [("message", .str "invalid x-api-key")])]) })
    (fun _ => .ok { ok := false, status := 401, statusText := "Unauthorized"
                    body := none
                    json := .ok (.obj [("error", .obj
                      [("message", .str "invalid x-api-key")])]) })
    (.ok (.obj [("model", .str "claude"), ("messages", .arr [])]))
    (by decide) (by decide) (fun _ _ _ _ => rfl)).1

/-! ## The end of the byte source, and the content type -/

/-- C19: if the byte source signals completion and no `data: [DONE]` line was among
the complete lines received, `streamResponseFromClaude` terminates normally: it
resolves, no diagnostic is added to the invocations made by the `try` block, and the
invocations are exactly those of the complete lines received, line by line in
order. -/
theorem streamResponseFromClaude_source_ends (rt : Runtime)
    (fetch : FetchCall → Except String FetchResponse)
    (prompt modelId : String) (messages files : List Json) (extendedThinking : Bool)
    (response : FetchResponse) (chunks : List String)
    (hf : fetch (requestCall prompt modelId messages files extendedThinking) = .ok response)
    (hs : Streams response (chunks.map .chunk))
    (hno : "data: [DONE]" ∉ completeLines (joinChunks chunks)) :
    (streamResponseFromClaude rt fetch prompt modelId messages files extendedThinking).result
      = .ok none ∧
    (streamResponseFromClaude rt fetch prompt modelId messages files extendedThinking).calls
      = (streamResponseFromClaude.attempt rt fetch prompt modelId messages files
          extendedThinking).calls ∧
    (streamResponseFromClaude rt fetch prompt modelId messages files extendedThinking).calls
      = (completeLines (joinChunks chunks)).flatMap (lineCalls rt) := by
  have hq := pairwise_of_no_done_line rt _ hno
  have h := streamResponseFromClaude_of_chunks rt fetch prompt modelId messages files
    extendedThinking response chunks hf hs hq
  have hatt := attempt_of_streams rt fetch prompt modelId messages files extendedThinking
    response _ hf hs
  have hrun := readLoop_chunks_append rt chunks [] "" []
  have e : ("" : String) ++ joinChunks chunks = joinChunks chunks := by
    apply String.ext; simp [String.data_append]
  rw [List.append_nil, runChunks_eq rt chunks "" [] (by decide) (by rw [e]; exact hq), e]
    at hrun
  rw [h, hatt, hrun]
  exact ⟨rfl, rfl, rfl⟩

/-- C19, witness: the source ends after one complete frame and one frame cut short. -/
theorem streamResponseFromClaude_source_ends_witness :
    (streamResponseFromClaude sampleRuntime
        (fun _ => .ok (eventStream
          [.chunk "data: \x7b\"type\":\"content_block_delta\",\"delta\":\x7b\"text\":\"A\"\x7d\x7d\n\ndata: \x7b\"type\":\"content_bl"]))
        "hi" "claude-3-5-sonnet-20240620" [] [] false).result = .ok none ∧
    (streamResponseFromClaude sampleRuntime
        (fun _ => .ok (eventStream
          [.chunk "data: \x7b\"type\":\"content_block_delta\",\"delta\":\x7b\"text\":\"A\"\x7d\x7d\n\ndata: \x7b\"type\":\"content_bl"]))
        "hi" "claude-3-5-sonnet-20240620" [] [] false).calls = [.str "A"] :=
  have h := streamResponseFromClaude_source_ends sampleRuntime
    (fun _ => .ok (eventStream
      [.chunk "data: \x7b\"type\":\"content_block_delta\",\"delta\":\x7b\"text\":\"A\"\x7d\x7d\n\ndata: \x7b\"type\":\"content_bl"]))
    "hi" "claude-3-5-sonnet-20240620" [] [] false (eventStream _)
    ["data: \x7b\"type\":\"content_block_delta\",\"delta\":\x7b\"text\":\"A\"\x7d\x7d\n\ndata: \x7b\"type\":\"content_bl"]
    rfl (streams_eventStream _) (by decide)
  ⟨h.1, h.2.2.trans (by decide)⟩

/-- C20, as amended: if the response has a success status and a body, and its content
type does not contain `text/event-stream` (or is absent), the consumer makes no read
of the body and fails with the error `API did not return a streaming response`; its
only callback invocation is the diagnostic of that error. -/
theorem streamResponseFromClaude_not_event_stream (rt : Runtime)
    (fetch : FetchCall → Except String FetchResponse)
    (prompt modelId : String) (messages files : List Json) (extendedThinking : Bool)
    (response : FetchResponse) (body : BodyStream)
    (hf : fetch (requestCall prompt modelId messages files extendedThinking) = .ok response)
    (hok : response.ok = true) (hbody : response.body = some body)
    (hct : ∀ contentType, response.contentType = some contentType →
      includes contentType "text/event-stream" = false) :
    streamResponseFromClaude rt fetch prompt modelId messages files extendedThinking =
      { calls := [.str ("Error connecting to Claude API: " ++
          "API did not return a streaming response" ++
          ". Please check your API key and try again.")]
        result := .error "API did not return a streaming response" } := by
  have ha : streamResponseFromClaude.attempt rt fetch prompt modelId messages files
      extendedThinking =
      { calls := [], result := .error "API did not return a streaming response" } := by
    unfold streamResponseFromClaude.attempt
    cases hc : response.contentType with
    | none => simp [hf, hok, hbody, hc]
    | some ct => simp [hf, hok, hbody, hc, hct ct hc]
  simp [streamResponseFromClaude, ha, handleStreamingError]

/-- C20, witness: a JSON reply with status 200; the body, whose first read would
raise, is not read. -/
theorem streamResponseFromClaude_not_event_stream_witness :
    streamResponseFromClaude sampleRuntime
        (fun _ => .ok { ok := true, status := 200, statusText := "OK"
                        contentType := some "application/json"
                        text := .ok "\x7b\x7d"
                        body := some [.fails "read failed"] })
        "hi" "claude-3-5-sonnet-20240620" [] [] false =
      { calls := [.str ("Error connecting to Claude API: " ++
          "API did not return a streaming response" ++
          ". Please check your API key and try again.")]
        result := .error "API did not return a streaming response" } :=
  streamResponseFromClaude_not_event_stream sampleRuntime
    (fun _ => .ok { ok := true, status := 200, statusText := "OK"
                    contentType := some "application/json"
                    text := .ok "\x7b\x7d"
                    body := some [.fails "read failed"] })
    "hi" "claude-3-5-sonnet-20240620" [] [] false _ [.fails "read failed"] rfl rfl rfl
    (fun ct h => by
      have h2 : ct = "application/json" := (Option.some.inj h).symm
      rw [h2]
      decide)

/-- C20, counterexample: a response with the success status 204, no content type and
no body (`response.body` is `null`): `response.body.getReader()` raises before the
content type is looked at, and the error is that `TypeError`, not the protocol
error. -/
theorem streamResponseFromClaude_null_body :
    (streamResponseFromClaude sampleRuntime
        (fun _ => .ok { ok := true, status := 204, statusText := "No Content"
                        contentType := none, text := .ok "", body := none })
        "hi" "claude-3-5-sonnet-20240620" [] [] false).result
      = .error "Cannot read properties of null (reading 'getReader')" ∧
    "Cannot read properties of null (reading 'getReader')" ≠
      "API did not return a streaming response" :=
  ⟨rfl, by decide⟩

/-! ## Lines without the prefix, lines after the sentinel, text after the last newline -/

theorem lineCalls_of_not_data (rt : Runtime) (line : String)
    (h : startsWith line "data: " = false) : lineCalls rt line = [] := by
  simp [lineCalls, h]

theorem isDone_of_not_data (line : String)
    (h : startsWith line "data: " = false) : isDone line = false := by
  simp [isDone, h]

/-- C21: a complete line that does not begin with the six characters `data: ` causes
no callback invocation and does not stop the pass: the pass with the line equals the
pass without it, wherever the line stands (`event: ping`, the empty line and
`data:{"a":1}` are such lines). A line that does begin with them is those six
characters followed by the payload examined, `line.slice(6)`: the pass stops if that
payload is `[DONE]`, and otherwise handles it as a frame and goes on. -/
theorem processLines_data_lines (rt : Runtime) (line : String) (pre post : List String) :
    (startsWith line "data: " = false →
      processLines rt (pre ++ line :: post) = processLines rt (pre ++ post)) ∧
    (startsWith line "data: " = true →
      line = "data: " ++ slice line 6 ∧
      processLines rt (line :: post) =
        if slice line 6 = "[DONE]" then []
        else frameCalls rt (slice line 6) ++ processLines rt post) ∧
    startsWith "event: ping" "data: " = false ∧
    startsWith "" "data: " = false ∧
    startsWith "data:\x7b\"a\":1\x7d" "data: " = false := by
  refine ⟨?_, ?_, by decide, by decide, by decide⟩
  · intro h
    exact processLines_skip rt pre post line (isDone_of_not_data line h)
      (lineCalls_of_not_data rt line h)
  · intro h
    refine ⟨?_, ?_⟩
    · have := eq_append_slice h
      have h6 : ("data: " : String).data.length = 6 := by decide
      rw [h6] at this
      exact this
    · rw [processLines]
      simp [h]

/-- C21, witness: the line `event: ping` between the frames of "A" and "B" changes
nothing, and the line of the frame of "A" is `data: ` followed by its payload. -/
theorem processLines_data_lines_witness :
    processLines sampleRuntime
        ["data: \x7b\"type\":\"content_block_delta\",\"delta\":\x7b\"text\":\"A\"\x7d\x7d",
         "event: ping",
         "data: \x7b\"type\":\"content_block_delta\",\"delta\":\x7b\"text\":\"B\"\x7d\x7d"]
      = [.str "A", .str "B"] ∧
    "data: \x7b\"type\":\"content_block_delta\",\"delta\":\x7b\"text\":\"A\"\x7d\x7d"
      = "data: " ++
        slice "data: \x7b\"type\":\"content_block_delta\",\"delta\":\x7b\"text\":\"A\"\x7d\x7d" 6 :=
  ⟨((processLines_data_lines sampleRuntime "event: ping"
      ["data: \x7b\"type\":\"content_block_delta\",\"delta\":\x7b\"text\":\"A\"\x7d\x7d"]
      ["data: \x7b\"type\":\"content_block_delta\",\"delta\":\x7b\"text\":\"B\"\x7d\x7d"]).1
      (by decide)).trans (by decide),
   ((processLines_data_lines sampleRuntime
      "data: \x7b\"type\":\"content_block_delta\",\"delta\":\x7b\"text\":\"A\"\x7d\x7d"
      [] []).2.1 (by decide)).1⟩

/-- C26: within one pass of the line loop, the lines that follow a `data: [DONE]`
line are not processed: the invocations of the pass are those of the lines before
the sentinel, whatever follows it. A content-delta frame after the sentinel in the
same chunk is not delivered. -/
theorem processLines_after_done (rt : Runtime) (pre post : List String) :
    processLines rt (pre ++ "data: [DONE]" :: post) = processLines rt pre ∧
    (streamResponseFromClaude sampleRuntime
        (fun _ => .ok (eventStream
          [.chunk "data: [DONE]\ndata: \x7b\"type\":\"content_block_delta\",\"delta\":\x7b\"text\":\"B\"\x7d\x7d\n"]))
        "hi" "claude-3-5-sonnet-20240620" [] [] false).calls = [] := by
  refine ⟨?_, by decide⟩
  induction pre with
  | nil =>
    rw [List.nil_append, processLines_cons, if_pos ((isDone_iff _).2 rfl)]
    rfl
  | cons a pre ih =>
    rw [List.cons_append, processLines_cons, processLines_cons, ih]

theorem runChunks_append (rt : Runtime) (chunks more : List String)
    (st : String × List Json) :
    runChunks rt (chunks ++ more) st = runChunks rt more (runChunks rt chunks st) := by
  induction chunks generalizing st with
  | nil => rfl
  | cons c cs ih =>
    obtain ⟨buffer, calls⟩ := st
    simp only [List.cons_append, runChunks]
    exact ih _

theorem runChunks_buffer_not_mem (rt : Runtime) (chunks : List String)
    (buffer : String) (calls : List Json) (h : '\n' ∉ buffer.data) :
    '\n' ∉ (runChunks rt chunks (buffer, calls)).1.data := by
  induction chunks generalizing buffer calls with
  | nil => exact h
  | cons c cs ih =>
    simp only [runChunks]
    exact ih _ _ (remainder_not_mem _)

/-- C27: text after the last newline of the stream is never processed. If, after
the chunks `chunks`, the byte source gives a last chunk `tail` without newline (a
content-delta frame whose line is not terminated, for one) and then completes, the
callback invocations are those of `chunks` alone, and the call resolves without
error. -/
theorem streamResponseFromClaude_unterminated_tail (rt : Runtime)
    (fetch : FetchCall → Except String FetchResponse)
    (prompt modelId : String) (messages files : List Json) (extendedThinking : Bool)
    (response : FetchResponse) (chunks : List String) (tail : String)
    (hf : fetch (requestCall prompt modelId messages files extendedThinking) = .ok response)
    (hs : Streams response ((chunks ++ [tail]).map .chunk))
    (ht : '\n' ∉ tail.data) :
    (streamResponseFromClaude rt fetch prompt modelId messages files extendedThinking).calls
      = (readLoop rt (chunks.map .chunk) "" []).calls ∧
    (streamResponseFromClaude rt fetch prompt modelId messages files extendedThinking).result
      = .ok none := by
  have hatt := attempt_of_streams rt fetch prompt modelId messages files extendedThinking
    response _ hf hs
  have h1 := readLoop_chunks_append rt (chunks ++ [tail]) [] "" []
  have h2 := readLoop_chunks_append rt chunks [] "" []
  rw [List.append_nil] at h1 h2
  have hb := runChunks_buffer_not_mem rt chunks "" [] (by decide)
  have hcl : completeLines ((runChunks rt chunks ("", [])).1 ++ tail) = [] := by
    apply completeLines_of_not_mem
    simp only [String.data_append, List.mem_append, not_or]
    exact ⟨hb, ht⟩
  have hrun : (runChunks rt (chunks ++ [tail]) ("", [])).2 =
      (runChunks rt chunks ("", [])).2 := by
    rw [runChunks_append]
    generalize runChunks rt chunks ("", []) = st at hcl
    obtain ⟨b, c⟩ := st
    simp only [runChunks, hcl, processLines, List.append_nil]
  have hres : (streamResponseFromClaude rt fetch prompt modelId messages files
      extendedThinking).result = .ok none := by
    rw [streamResponseFromClaude_result, hatt]
    exact readLoop_chunks_result rt (chunks ++ [tail]) "" []
  refine ⟨?_, hres⟩
  have hcalls : (streamResponseFromClaude rt fetch prompt modelId messages files
      extendedThinking).calls = (streamResponseFromClaude.attempt rt fetch prompt modelId
      messages files extendedThinking).calls := by
    unfold streamResponseFromClaude
    rw [streamResponseFromClaude_result] at hres
    simp [hres]
  rw [hcalls, hatt, h1, h2]
  simp only [readLoop]
  exact hrun

/-- C27, witness: the source ends while the buffer holds the frame of "B" without
its newline; only "A" is delivered. -/
theorem streamResponseFromClaude_unterminated_tail_witness :
    (streamResponseFromClaude sampleRuntime
        (fun _ => .ok (eventStream
          [.chunk "data: \x7b\"type\":\"content_block_delta\",\"delta\":\x7b\"text\":\"A\"\x7d\x7d\n\n",
           .chunk "data: \x7b\"type\":\"content_block_delta\",\"delta\":\x7b\"text\":\"B\"\x7d\x7d"]))
        "hi" "claude-3-5-sonnet-20240620" [] [] false).calls = [.str "A"] ∧
    (streamResponseFromClaude sampleRuntime
        (fun _ => .ok (eventStream
          [.chunk "data: \x7b\"type\":\"content_block_delta\",\"delta\":\x7b\"text\":\"A\"\x7d\x7d\n\n",
           .chunk "data: \x7b\"type\":\"content_block_delta\",\"delta\":\x7b\"text\":\"B\"\x7d\x7d"]))
        "hi" "claude-3-5-sonnet-20240620" [] [] false).result = .ok none :=
  have h := streamResponseFromClaude_unterminated_tail sampleRuntime
    (fun _ => .ok (eventStream
      [.chunk "data: \x7b\"type\":\"content_block_delta\",\"delta\":\x7b\"text\":\"A\"\x7d\x7d\n\n",
       .chunk "data: \x7b\"type\":\"content_block_delta\",\"delta\":\x7b\"text\":\"B\"\x7d\x7d"]))
    "hi" "claude-3-5-sonnet-20240620" [] [] false (eventStream _)
    ["data: \x7b\"type\":\"content_block_delta\",\"delta\":\x7b\"text\":\"A\"\x7d\x7d\n\n"]
    "data: \x7b\"type\":\"content_block_delta\",\"delta\":\x7b\"text\":\"B\"\x7d\x7d"
    rfl (streams_eventStream _) (by decide)
  ⟨h.1.trans (by decide), h.2⟩

/-! ## Bytes split across chunks -/

theorem Decoder.decode_cons {σ : Type} (d : Decoder σ) (s : σ) (b : Nat) (bs : List Nat) :
    d.decode s (b :: bs) =
      ((d.decode (d.step s b).1 bs).1,
        String.mk (d.step s b).2 ++ (d.decode (d.step s b).1 bs).2) := rfl

theorem Decoder.decode_append {σ : Type} (d : Decoder σ) (s : σ) (a b : List Nat) :
    d.decode s (a ++ b) =
      ((d.decode (d.decode s a).1 b).1, (d.decode s a).2 ++ (d.decode (d.decode s a).1 b).2) := by
  induction a generalizing s with
  | nil =>
    simp only [List.nil_append, Decoder.decode]
    refine Prod.ext rfl ?_
    apply String.ext
    simp [String.data_append]
  | cons x a ih =>
    rw [List.cons_append, Decoder.decode_cons, ih, Decoder.decode_cons, String.append_assoc]

theorem joinChunks_decodedReads {σ : Type} (d : Decoder σ) (s : σ)
    (values : List (List Nat)) :
    joinChunks (decodedReads d s values) = (d.decode s values.flatten).2 := by
  induction values generalizing s with
  | nil => rfl
  | cons v vs ih =>
    simp only [decodedReads, joinChunks, List.flatten_cons, Decoder.decode_append, ih]

/-- C22: the bytes of a stream decode to the same text however they are cut into
chunks, a cut inside a multi-byte character included: the decoder keeps its state
from one read to the next. Hence, for every decoder, every sequence of bytes whose
text has no `data: [DONE]` line and every two ways of cutting it into chunks, the
texts decoded from the two sequences of chunks concatenate to the same text, and
`streamResponseFromClaude` delivers the same fragments in both runs and resolves. -/
theorem streamResponseFromClaude_byte_split {σ : Type} (rt : Runtime) (d : Decoder σ)
    (fetch fetch2 : FetchCall → Except String FetchResponse)
    (prompt modelId : String) (messages files : List Json) (extendedThinking : Bool)
    (response response2 : FetchResponse) (values values2 : List (List Nat))
    (hf : fetch (requestCall prompt modelId messages files extendedThinking) = .ok response)
    (hs : Streams response ((decodedReads d d.init values).map .chunk))
    (hf2 : fetch2 (requestCall prompt modelId messages files extendedThinking)
      = .ok response2)
    (hs2 : Streams response2 ((decodedReads d d.init values2).map .chunk))
    (hbytes : values.flatten = values2.flatten)
    (hno : "data: [DONE]" ∉ completeLines (d.decode d.init values.flatten).2) :
    joinChunks (decodedReads d d.init values) = joinChunks (decodedReads d d.init values2) ∧
    (streamResponseFromClaude rt fetch prompt modelId messages files extendedThinking).calls
      = (streamResponseFromClaude rt fetch2 prompt modelId messages files
          extendedThinking).calls ∧
    (streamResponseFromClaude rt fetch prompt modelId messages files extendedThinking).result
      = .ok none ∧
    (streamResponseFromClaude rt fetch2 prompt modelId messages files extendedThinking).result
      = .ok none := by
  have e1 := joinChunks_decodedReads d d.init values
  have e2 := joinChunks_decodedReads d d.init values2
  rw [← hbytes] at e2
  have hq := pairwise_of_no_done_line rt _ hno
  rw [streamResponseFromClaude_of_chunks rt fetch prompt modelId messages files
      extendedThinking response _ hf hs (by rw [e1]; exact hq),
    streamResponseFromClaude_of_chunks rt fetch2 prompt modelId messages files
      extendedThinking response2 _ hf2 hs2 (by rw [e2]; exact hq), e1, e2]
  exact ⟨rfl, rfl, rfl, rfl⟩

/-- C22, witness: the frame of the fragment "é" (bytes 195, 169), cut between its two
bytes and in one piece. The first chunk of the cut stream decodes to the text before
the character, the second starts with the character; "é" is delivered in both. -/
theorem streamResponseFromClaude_byte_split_witness :
    decodedReads utf8Decoder utf8Decoder.init
        [asciiBytes "data: \x7b\"type\":\"content_block_delta\",\"delta\":\x7b\"text\":\"" ++ [195],
         [169] ++ asciiBytes "\"\x7d\x7d\n"]
      = ["data: \x7b\"type\":\"content_block_delta\",\"delta\":\x7b\"text\":\"",
         "é\"\x7d\x7d\n"] ∧
    (streamResponseFromClaude sampleRuntime
        (fun _ => .ok (eventStream ((decodedReads utf8Decoder utf8Decoder.init
          [asciiBytes "data: \x7b\"type\":\"content_block_delta\",\"delta\":\x7b\"text\":\"" ++ [195],
           [169] ++ asciiBytes "\"\x7d\x7d\n"]).map .chunk)))
        "hi" "claude-3-5-sonnet-20240620" [] [] false).calls
      = (streamResponseFromClaude sampleRuntime
        (fun _ => .ok (eventStream ((decodedReads utf8Decoder utf8Decoder.init
          [asciiBytes "data: \x7b\"type\":\"content_block_delta\",\"delta\":\x7b\"text\":\"" ++ [195, 169]
            ++ asciiBytes "\"\x7d\x7d\n"]).map .chunk)))
        "hi" "claude-3-5-sonnet-20240620" [] [] false).calls ∧
    (streamResponseFromClaude sampleRuntime
        (fun _ => .ok (eventStream ((decodedReads utf8Decoder utf8Decoder.init
          [asciiBytes "data: \x7b\"type\":\"content_block_delta\",\"delta\":\x7b\"text\":\"" ++ [195],
           [169] ++ asciiBytes "\"\x7d\x7d\n"]).map .chunk)))
        "hi" "claude-3-5-sonnet-20240620" [] [] false).calls = [.str "é"] :=
  have h := streamResponseFromClaude_byte_split sampleRuntime utf8Decoder
    (fun _ => .ok (eventStream ((decodedReads utf8Decoder utf8Decoder.init
      [asciiBytes "data: \x7b\"type\":\"content_block_delta\",\"delta\":\x7b\"text\":\"" ++ [195],
       [169] ++ asciiBytes "\"\x7d\x7d\n"]).map .chunk)))
    (fun _ => .ok (eventStream ((decodedReads utf8Decoder utf8Decoder.init
      [asciiBytes "data: \x7b\"type\":\"content_block_delta\",\"delta\":\x7b\"text\":\"" ++ [195, 169]
        ++ asciiBytes "\"\x7d\x7d\n"]).map .chunk)))
    "hi" "claude-3-5-sonnet-20240620" [] [] false (eventStream _) (eventStream _)
    [asciiBytes "data: \x7b\"type\":\"content_block_delta\",\"delta\":\x7b\"text\":\"" ++ [195],
     [169] ++ asciiBytes "\"\x7d\x7d\n"]
    [asciiBytes "data: \x7b\"type\":\"content_block_delta\",\"delta\":\x7b\"text\":\"" ++ [195, 169]
      ++ asciiBytes "\"\x7d\x7d\n"]
    rfl (streams_eventStream _) rfl (streams_eventStream _) (by decide) (by decide)
  ⟨by decide, h.2.1, by decide⟩

/-! ## The request of the consumer -/

/-- C23: for every prompt and every list of prior messages, the request the consumer
issues has `messages` equal to the prior messages in their order followed by the one
element `{role: 'user', content: prompt}`; so `messages` is never empty, it has one
element more than the prior messages, and its last element is that one. When
`sendMessage` makes the call, the prior messages are the stored messages of the chat
without the message being sent, each with its role and text, so that the current
message comes once, at the end. -/
theorem requestCall_messages (prompt modelId : String) (messages files : List Json)
    (extendedThinking : Bool) (chatMessages : List ChatMessage) :
    getPropOpt (some (requestCall prompt modelId messages files extendedThinking).body)
        "messages"
      = some (.arr (messages ++ [.obj [("role", .str "user"), ("content", .str prompt)]])) ∧
    messages ++ [Json.obj [("role", .str "user"), ("content", .str prompt)]] ≠ [] ∧
    (messages ++ [Json.obj [("role", .str "user"), ("content", .str prompt)]]).length
      = messages.length + 1 ∧
    (messages ++ [Json.obj [("role", .str "user"), ("content", .str prompt)]]).getLast?
      = some (.obj [("role", .str "user"), ("content", .str prompt)]) ∧
    (messages ++ [Json.obj [("role", .str "user"), ("content", .str prompt)]]).dropLast
      = messages ∧
    getPropOpt (some (sendMessageRequest chatMessages prompt modelId files
        extendedThinking).body) "messages"
      = some (.arr (chatMessages.map (fun msg =>
          Json.obj [("role", .str (if msg.sender = "user" then "user" else "assistant")),
                    ("content", .str msg.text)])
          ++ [.obj [("role", .str "user"), ("content", .str prompt)]])) := by
  refine ⟨?_, by simp, by simp, by simp, by simp, ?_⟩
  · exact (requestPayload_props prompt modelId messages files extendedThinking).2.1
  · exact (requestPayload_props prompt modelId (previousMessages chatMessages) files
      extendedThinking).2.1

/-- C24, the code on every request of the consumer: the consumer sends the flag under
the key `extended_thinking`, the forwarder reads the key `extendedThinking`, which
the request does not have; so the payload the forwarder builds from the request of
the consumer has no `extended_thinking` member, whatever the model and the value of
`extendedThinking`, the Claude 3.7 model with `true` included. -/
theorem POST_drops_extended_thinking (rt : Runtime) (key : String)
    (upstream : FetchCall → Except String UpstreamResponse)
    (prompt modelId : String) (messages files : List Json) (extendedThinking : Bool)
    (hk : key ≠ "") (hm : modelId ≠ "") :
    getPropOpt (some (requestPayload prompt CLAUDE_3_7_SONNET messages files true))
        "extended_thinking" = some (.bool true) ∧
    getPropOpt (some (requestPayload prompt modelId messages files extendedThinking))
        "extendedThinking" = none ∧
    ∃ payload : List (String × Json),
      (POST rt (some key) upstream
        (.ok (requestPayload prompt modelId messages files extendedThinking))).upstreamCalls
        = [upstreamCall key payload] ∧
      Json.member "extended_thinking" payload = none := by
  have hv := requestPayload_valid prompt modelId messages files extendedThinking hm
  have hst := (requestPayload_props prompt modelId messages files extendedThinking).2.2
  have het : getPropOpt (some (requestPayload prompt modelId messages files
      extendedThinking)) "extendedThinking" = none := by
    cases files <;> simp [requestPayload, getPropOpt, Json.member]
  refine ⟨?_, het, _, POST_valid_calls rt key upstream _ hv hk, ?_⟩
  · cases files <;> simp [requestPayload, getPropOpt, Json.member, CLAUDE_3_7_SONNET]
  · obtain ⟨h1, h2, -⟩ := requestPayload_props prompt modelId messages files
      extendedThinking
    rw [h1, h2, het, hst]
    generalize getPropOpt (some (requestPayload prompt modelId messages files
      extendedThinking)) "attachments" = attachments
    have hatt : Json.member "extended_thinking"
        (match attachments with
          | some (.arr (x :: xs)) => [("attachments", Json.arr (x :: xs))]
          | _ => []) = none := by
      split <;> simp [Json.member]
    simp [buildPayload, truthy, Json.member, hatt]

/-- C24, witness: extended thinking asked for with the Claude 3.7 model; the payload
sent upstream is `model`, `messages`, `max_tokens` and `stream`. -/
theorem POST_drops_extended_thinking_witness :
    (∃ payload : List (String × Json),
      (POST sampleRuntime (some "sk-test") (fun _ => .error "connection refused")
        (.ok (requestPayload "hi" "claude-3-7-sonnet-20240307" [] [] true))).upstreamCalls
        = [upstreamCall "sk-test" payload] ∧
      Json.member "extended_thinking" payload = none) ∧
    (POST sampleRuntime (some "sk-test") (fun _ => .error "connection refused")
        (.ok (requestPayload "hi" "claude-3-7-sonnet-20240307" [] [] true))).upstreamCalls
      = [upstreamCall "sk-test"
          [("model", .str "claude-3-7-sonnet-20240307"),
           ("messages", .arr [.obj [("role", .str "user"), ("content", .str "hi")]]),
           ("max_tokens", .num 4096 0), ("stream", .bool true)]] :=
  ⟨(POST_drops_extended_thinking sampleRuntime "sk-test"
      (fun _ => .error "connection refused") "hi" "claude-3-7-sonnet-20240307" [] [] true
      (by decide) (by decide)).2.2, by decide⟩

/-! ## Sign-in -/

theorem member_filter_password (k : String) (record : List (String × Json)) :
    (k ≠ "password" →
      Json.member k (record.filter (fun member => decide (member.1 ≠ "password")))
        = Json.member k record) ∧
    Json.member "password" (record.filter (fun member => decide (member.1 ≠ "password")))
      = none := by
  induction record with
  | nil => exact ⟨fun _ => rfl, rfl⟩
  | cons kv rest ih =>
    obtain ⟨k1, v⟩ := kv
    by_cases h1 : k1 = "password"
    · subst h1
      refine ⟨fun hk => ?_, ?_⟩
      · simp only [List.filter, ne_eq, not_true_eq_false, decide_False]
        rw [ih.1 hk]
        simp only [Json.member]
        cases Json.member k rest with
        | some w => rfl
        | none => simp [Ne.symm hk]
      · simpa [List.filter] using ih.2
    · refine ⟨fun hk => ?_, ?_⟩
      · simp only [List.filter, ne_eq, h1, not_false_eq_true, decide_True, Json.member]
        rw [ih.1 hk]
      · simp only [List.filter, ne_eq, h1, not_false_eq_true, decide_True, Json.member]
        rw [ih.2]
        simp [h1]

/-- C25: for every username and password, `login` returns `null` unless some
hardcoded user has exactly that username and that password; when a user does, it
returns the record of that user without the `password` member and with every other
member (`id`, `username`, `displayName`, `role`, `avatar`) as it is. -/
theorem login_spec (username password : String) :
    (login username password = none ↔
      ∀ user ∈ users, ¬ (Json.member "username" user = some (.str username) ∧
        Json.member "password" user = some (.str password))) ∧
    ∀ user ∈ users, Json.member "username" user = some (.str username) →
      Json.member "password" user = some (.str password) →
      ∃ record, login username password = some record ∧
        record = user.filter (fun member => decide (member.1 ≠ "password")) ∧
        Json.member "password" record = none ∧
        ∀ k, k ≠ "password" → Json.member k record = Json.member k user := by
  have key : ∀ user ∈ users, Json.member "username" user = some (.str username) →
      Json.member "password" user = some (.str password) →
      login username password
        = some (user.filter (fun member => decide (member.1 ≠ "password"))) := by
    intro user hu h1 h2
    simp only [users, List.mem_cons, List.mem_singleton, List.not_mem_nil, or_false] at hu
    rcases hu with rfl | rfl
    · have e1 : username = "user" := by
        have : some (Json.str "user") = some (.str username) := h1
        simpa using this.symm
      have e2 : password = "password" := by
        have : some (Json.str "password") = some (.str password) := h2
        simpa using this.symm
      subst e1 e2
      decide
    · have e1 : username = "admin" := by
        have : some (Json.str "admin") = some (.str username) := h1
        simpa using this.symm
      have e2 : password = "admin123" := by
        have : some (Json.str "admin123") = some (.str password) := h2
        simpa using this.symm
      subst e1 e2
      decide
  refine ⟨⟨?_, ?_⟩, ?_⟩
  · intro hnone user hu hmatch
    rw [key user hu hmatch.1 hmatch.2] at hnone
    exact absurd hnone (by simp)
  · intro hno
    unfold login
    cases hfind : users.find? (fun u =>
        decide (Json.member "username" u = some (.str username)) &&
        decide (Json.member "password" u = some (.str password))) with
    | none => rfl
    | some user =>
      have hmem := List.mem_of_find?_eq_some hfind
      have hp := List.find?_some hfind
      simp only [Bool.and_eq_true, decide_eq_true_eq] at hp
      exact absurd hp (hno user hmem)
  · intro user hu h1 h2
    exact ⟨_, key user hu h1 h2, rfl, (member_filter_password "password" user).2,
      fun k hk => (member_filter_password k user).1 hk⟩

/-- C25, witness: `login('user', 'password')` is the record of the first user without
its password, and `login('user', 'admin123')` is `null`. -/
theorem login_spec_witness :
    (∃ record, login "user" "password" = some record ∧
      record = [("id", .str "1"), ("username", .str "user"),
                ("displayName", .str "Demo User"), ("role", .str "user"),
                ("avatar", .null)]) ∧
    login "user" "admin123" = none :=
  ⟨(fun ⟨record, h1, h2, _⟩ => ⟨record, h1, h2.trans (by decide)⟩)
      ((login_spec "user" "password").2
        [("id", .str "1"), ("username", .str "user"), ("password", .str "password"),
         ("displayName", .str "Demo User"), ("role", .str "user"), ("avatar", .null)]
        (by decide) (by decide) (by decide)),
   (login_spec "user" "admin123").1.2 (by decide)⟩

/-! ## A callback that raises -/

theorem frameCallsWith_eq (rt : Runtime) (onChunk : Callback) (calls : List Json)
    (data : String) :
    frameCallsWith rt onChunk calls data = calls ++ frameCalls rt data := by
  unfold frameCallsWith frameCalls
  cases rt.parse data with
  | none => simp
  | some parsed =>
    simp only []
    cases getProp rt (some parsed) "type" with
    | error e => simp
    | ok type =>
      simp only []
      split
      · cases getProp rt (some parsed) "delta" with
        | error e => simp
        | ok delta =>
          simp only []
          cases getProp rt delta "text" with
          | error e => simp
          | ok text =>
            cases text with
            | none => simp
            | some v =>
              simp only []
              split
              · cases onChunk calls v <;> rfl
              · simp
      · simp

theorem processLinesWith_eq (rt : Runtime) (onChunk : Callback) (calls : List Json)
    (lines : List String) :
    processLinesWith rt onChunk calls lines = calls ++ processLines rt lines := by
  induction lines generalizing calls with
  | nil => simp [processLinesWith, processLines]
  | cons line rest ih =>
    rw [processLinesWith, processLines]
    by_cases hp : startsWith line "data: " = true
    · by_cases hd : slice line 6 = "[DONE]"
      · simp [hp, hd]
      · simp [hp, hd, ih, frameCallsWith_eq, List.append_assoc]
    · simp [hp, ih]

theorem readLoopWith_eq (rt : Runtime) (onChunk : Callback) (body : BodyStream)
    (buffer : String) (calls : List Json) :
    readLoopWith rt onChunk body buffer calls = readLoop rt body buffer calls := by
  induction body generalizing buffer calls with
  | nil => rfl
  | cons r rest ih =>
    cases r with
    | fails m => rfl
    | chunk text => simp only [readLoopWith, readLoop, processLinesWith_eq, ih]

theorem attemptWith_eq (rt : Runtime) (onChunk : Callback)
    (fetch : FetchCall → Except String FetchResponse)
    (prompt modelId : String) (messages files : List Json) (extendedThinking : Bool) :
    streamResponseFromClaudeWith.attempt rt onChunk fetch prompt modelId messages files
        extendedThinking
      = streamResponseFromClaude.attempt rt fetch prompt modelId messages files
          extendedThinking := by
  unfold streamResponseFromClaudeWith.attempt streamResponseFromClaude.attempt
  simp only [readLoopWith_eq]

/-- C28: a callback that raises while it is given a content-delta fragment changes
nothing: what it raises is caught with the errors of the frame and logged. For every
callback, raising or not, on a streaming response whose reads succeed the consumer
resolves, makes no diagnostic invocation, and makes exactly the invocations it makes
with a callback that never raises, those of the later frames included. -/
theorem streamResponseFromClaudeWith_raising_callback (rt : Runtime) (onChunk : Callback)
    (fetch : FetchCall → Except String FetchResponse)
    (prompt modelId : String) (messages files : List Json) (extendedThinking : Bool)
    (response : FetchResponse) (chunks : List String)
    (hf : fetch (requestCall prompt modelId messages files extendedThinking) = .ok response)
    (hs : Streams response (chunks.map .chunk)) :
    (streamResponseFromClaudeWith rt onChunk fetch prompt modelId messages files
        extendedThinking).result = .ok none ∧
    (streamResponseFromClaudeWith rt onChunk fetch prompt modelId messages files
        extendedThinking).calls
      = (streamResponseFromClaude rt fetch prompt modelId messages files
          extendedThinking).calls ∧
    (streamResponseFromClaudeWith rt onChunk fetch prompt modelId messages files
        extendedThinking).calls
      = (readLoop rt (chunks.map .chunk) "" []).calls := by
  have hatt := attempt_of_streams rt fetch prompt modelId messages files extendedThinking
    response _ hf hs
  have hres := readLoop_chunks_result rt chunks "" []
  have h1 : streamResponseFromClaudeWith rt onChunk fetch prompt modelId messages files
      extendedThinking =
      { calls := (readLoop rt (chunks.map .chunk) "" []).calls, result := .ok none } := by
    unfold streamResponseFromClaudeWith
    simp only [attemptWith_eq, hatt, hres]
  have h2 : streamResponseFromClaude rt fetch prompt modelId messages files
      extendedThinking =
      { calls := (readLoop rt (chunks.map .chunk) "" []).calls, result := .ok none } := by
    unfold streamResponseFromClaude
    simp only [hatt, hres]
  rw [h1, h2]
  exact ⟨rfl, rfl, rfl⟩

/-- C28, witness: the callback raises on the fragment "A"; "A" and then "B" are
passed to it, and the call resolves. -/
theorem streamResponseFromClaudeWith_raising_callback_witness :
    (streamResponseFromClaudeWith sampleRuntime
        (fun _ fragment => if fragment = .str "A" then .error "callback failed" else .ok ())
        (fun _ => .ok (eventStream
          [.chunk "data: \x7b\"type\":\"content_block_delta\",\"delta\":\x7b\"text\":\"A\"\x7d\x7d\n\ndata: \x7b\"type\":\"content_block_delta\",\"delta\":\x7b\"text\":\"B\"\x7d\x7d\n\n"]))
        "hi" "claude-3-5-sonnet-20240620" [] [] false).result = .ok none ∧
    (streamResponseFromClaudeWith sampleRuntime
        (fun _ fragment => if fragment = .str "A" then .error "callback failed" else .ok ())
        (fun _ => .ok (eventStream
          [.chunk "data: \x7b\"type\":\"content_block_delta\",\"delta\":\x7b\"text\":\"A\"\x7d\x7d\n\ndata: \x7b\"type\":\"content_block_delta\",\"delta\":\x7b\"text\":\"B\"\x7d\x7d\n\n"]))
        "hi" "claude-3-5-sonnet-20240620" [] [] false).calls = [.str "A", .str "B"] :=
  have h := streamResponseFromClaudeWith_raising_callback sampleRuntime
    (fun _ fragment => if fragment = .str "A" then .error "callback failed" else .ok ())
    (fun _ => .ok (eventStream
      [.chunk "data: \x7b\"type\":\"content_block_delta\",\"delta\":\x7b\"text\":\"A\"\x7d\x7d\n\ndata: \x7b\"type\":\"content_block_delta\",\"delta\":\x7b\"text\":\"B\"\x7d\x7d\n\n"]))
    "hi" "claude-3-5-sonnet-20240620" [] [] false (eventStream _)
    ["data: \x7b\"type\":\"content_block_delta\",\"delta\":\x7b\"text\":\"A\"\x7d\x7d\n\ndata: \x7b\"type\":\"content_block_delta\",\"delta\":\x7b\"text\":\"B\"\x7d\x7d\n\n"]
    rfl (streams_eventStream _)
  ⟨h.1, h.2.2.trans (by decide)⟩

/-! ## Folder counts and file icons -/

theorem updateFolderChatCount_count (st : ChatState) (folderId : String) :
    ∀ folder ∈ updateFolderChatCount st folderId, folder.id = folderId →
      folder.chats =
        (st.chats.filter (fun chat => decide (chat.folderId = some folderId))).length := by
  intro folder hmem hid
  simp only [updateFolderChatCount, List.mem_map] at hmem
  obtain ⟨g, -, hg⟩ := hmem
  by_cases h : g.id = folderId
  · rw [if_pos h] at hg
    rw [← hg]
  · rw [if_neg h] at hg
    rw [← hg] at hid
    exact absurd hid h

/-- C29, the code on every `createChat` and `deleteChat` that touches a folder: the
count stored in the folder is taken over the chat list the handler sees, the one
before the update. After `createChat(title, folderId)` it is one less than the number
of chats of the folder in the updated list; after `deleteChat(chatId)` of a chat of
the folder it is more than that number. -/
theorem folder_count_is_stale (st : ChatState) (now iso title folderId : String)
    (hid : folderId ≠ "") :
    (∀ folder ∈ (createChat st now iso title (some folderId)).1.folders,
      folder.id = folderId →
      folder.chats =
        (st.chats.filter (fun chat => decide (chat.folderId = some folderId))).length ∧
      ((createChat st now iso title (some folderId)).1.chats.filter
        (fun chat => decide (chat.folderId = some folderId))).length = folder.chats + 1) ∧
    (∀ chatId chat, chatId ≠ "" →
      st.chats.find? (fun c => decide (c.id = chatId)) = some chat →
      chat.folderId = some folderId →
      ∀ folder ∈ (deleteChat st chatId).folders, folder.id = folderId →
        folder.chats =
          (st.chats.filter (fun c => decide (c.folderId = some folderId))).length ∧
        ((deleteChat st chatId).chats.filter
          (fun c => decide (c.folderId = some folderId))).length < folder.chats) := by
  have hf : hasFolder (some folderId) = some folderId := by simp [hasFolder, hid]
  refine ⟨?_, ?_⟩
  · intro folder hmem hfid
    simp only [createChat, hf] at hmem
    have hc := updateFolderChatCount_count st folderId folder hmem hfid
    refine ⟨hc, ?_⟩
    rw [hc]
    simp [createChat, List.filter]
  · intro chatId chat hne hfind hfolder folder hmem hfid
    have hdel : (deleteChat st chatId).folders = updateFolderChatCount st folderId := by
      simp [deleteChat, hne, hfind, hfolder, hf]
    have hchats : (deleteChat st chatId).chats =
        st.chats.filter (fun c => decide (c.id ≠ chatId)) := by
      simp [deleteChat, hne]
    rw [hdel] at hmem
    have hc := updateFolderChatCount_count st folderId folder hmem hfid
    refine ⟨hc, ?_⟩
    rw [hc, hchats, List.filter_comm]
    have hin : chat ∈ st.chats := List.mem_of_find?_eq_some hfind
    have hcid : chat.id = chatId := by
      have := List.find?_some hfind
      simpa using this
    exact List.length_filter_lt_length_iff_exists.2
      ⟨chat, List.mem_filter.2 ⟨hin, by simp [hfolder]⟩, by simp [hcid]⟩

/-- C29, witness: one folder without chats. After `createChat('New Chat', 'f1')` the
chat list has one chat of the folder, and the count stored in the folder is 0. -/
theorem folder_count_is_stale_witness :
    (createChat { chats := [], folders := [{ id := "f1", chats := 0, other := [] }],
                  currentChat := none } "1700000000000" "2023-11-14T22:13:20.000Z"
        "New Chat" (some "f1")).1.folders = [{ id := "f1", chats := 0, other := [] }] ∧
    ((createChat { chats := [], folders := [{ id := "f1", chats := 0, other := [] }],
                   currentChat := none } "1700000000000" "2023-11-14T22:13:20.000Z"
        "New Chat" (some "f1")).1.chats.filter
      (fun chat => decide (chat.folderId = some "f1"))).length = 1 :=
  have h := (folder_count_is_stale
    { chats := [], folders := [{ id := "f1", chats := 0, other := [] }], currentChat := none }
    "1700000000000" "2023-11-14T22:13:20.000Z" "New Chat" "f1" (by decide)).1
    { id := "f1", chats := 0, other := [] } (by decide) rfl
  ⟨by decide, h.2⟩

/-- C30, the code at the failing input: the MIME type of an `.xlsx` file contains
`spreadsheet`, and, before it is tested for that, it is found to contain `document`
(in `officedocument`): the icon is `document`. The same holds of the type of an
`.ods` file. A type such as `application/vnd.ms-excel` does get `spreadsheet`. -/
theorem getFileIcon_xlsx :
    includes "application/vnd.openxmlformats-officedocument.spreadsheetml.sheet"
      "spreadsheet" = true ∧
    includes "application/vnd.openxmlformats-officedocument.spreadsheetml.sheet"
      "document" = true ∧
    getFileIcon "application/vnd.openxmlformats-officedocument.spreadsheetml.sheet"
      = "document" ∧
    includes "application/vnd.oasis.opendocument.spreadsheet" "spreadsheet" = true ∧
    getFileIcon "application/vnd.oasis.opendocument.spreadsheet" = "document" ∧
    getFileIcon "application/vnd.ms-excel" = "spreadsheet" := by
  decide

end NoteBook
